import Mathlib

/-!
Verification of the Telegram-linked-identity and session-authentication core of
the auth service (`VKR/auth-service/main.py`).

The development shallowly embeds the relevant routes and their helpers:
machine times are `Int` seconds (UTC), byte strings are `List Nat`
(each entry < 256), and the relational store is a pair of lists mirroring the
`users` and `telegram_links` tables.  Library collaborators used by the source
(`hashlib`/`hmac`, `urllib.parse.parse_qs`, `json.loads`, the jose JWT codec,
the passlib hasher) are modelled executably below, byte-exactly where the
claims depend on them (SHA-256 / HMAC-SHA256 are full implementations checked
against standard test vectors).
-/

set_option maxRecDepth 100000

namespace Calendar

/-! ## Bytes and UTF-8 -/

/-- UTF-8 encoding of a single character (code point to bytes). -/
def utf8Char (c : Char) : List Nat :=
  let n := c.toNat
  if n < 128 then [n]
  else if n < 2048 then [192 + n / 64, 128 + n % 64]
  else if n < 65536 then [224 + n / 4096, 128 + (n / 64) % 64, 128 + n % 64]
  else [240 + n / 262144, 128 + (n / 4096) % 64, 128 + (n / 64) % 64, 128 + n % 64]

/-- UTF-8 encoding of a string, as Python's `str.encode()`. -/
def utf8 (s : String) : List Nat :=
  (s.data.map utf8Char).flatten

/-- Number of UTF-8 bytes of a string (`len(s.encode())`). -/
def utf8Len (s : String) : Nat := (utf8 s).length

/-! ## SHA-256 (FIPS 180-4), executable over byte lists -/

def w32 : Nat := 4294967296

def add32 (a b : Nat) : Nat := (a + b) % w32

def rotr (n x : Nat) : Nat := ((x >>> n) ||| (x <<< (32 - n))) % w32

def bigSigma0 (x : Nat) : Nat := (rotr 2 x) ^^^ (rotr 13 x) ^^^ (rotr 22 x)

def bigSigma1 (x : Nat) : Nat := (rotr 6 x) ^^^ (rotr 11 x) ^^^ (rotr 25 x)

def smallSigma0 (x : Nat) : Nat := (rotr 7 x) ^^^ (rotr 18 x) ^^^ (x >>> 3)

def smallSigma1 (x : Nat) : Nat := (rotr 17 x) ^^^ (rotr 19 x) ^^^ (x >>> 10)

def chF (e f g : Nat) : Nat := (e &&& f) ^^^ ((e ^^^ (w32 - 1)) &&& g)

def majF (a b c : Nat) : Nat := (a &&& b) ^^^ (a &&& c) ^^^ (b &&& c)

/-- The 64 SHA-256 round constants (FIPS 180-4, §4.2.2), in decimal. -/
def shaK : List Nat :=
  [1116352408, 1899447441, 3049323471, 3921009573, 961987163, 1508970993,
   2453635748, 2870763221, 3624381080, 310598401, 607225278, 1426881987,
   1925078388, 2162078206, 2614888103, 3248222580, 3835390401, 4022224774,
   264347078, 604807628, 770255983, 1249150122, 1555081692, 1996064986,
   2554220882, 2821834349, 2952996808, 3210313671, 3336571891, 3584528711,
   113926993, 338241895, 666307205, 773529912, 1294757372, 1396182291,
   1695183700, 1986661051, 2177026350, 2456956037, 2730485921, 2820302411,
   3259730800, 3345764771, 3516065817, 3600352804, 4094571909, 275423344,
   430227734, 506948616, 659060556, 883997877, 958139571, 1322822218,
   1537002063, 1747873779, 1955562222, 2024104815, 2227730452, 2361852424,
   2428436474, 2756734187, 3204031479, 3329325298]

/-- Extend the message schedule, kept in reverse order: the new word is
`σ1(w[i-2]) + w[i-7] + σ0(w[i-15]) + w[i-16]` (adds `n` words). -/
def extendWR (wrev : List Nat) : Nat → List Nat
  | 0 => wrev
  | n + 1 =>
    extendWR
      (add32 (add32 (smallSigma1 (wrev.getD 1 0)) (wrev.getD 6 0))
             (add32 (smallSigma0 (wrev.getD 14 0)) (wrev.getD 15 0)) :: wrev) n

structure Sha8 where
  a : Nat
  b : Nat
  c : Nat
  d : Nat
  e : Nat
  f : Nat
  g : Nat
  h : Nat

def shaRound (s : Sha8) (kw : Nat × Nat) : Sha8 :=
  let t1 := add32 (add32 (add32 s.h (bigSigma1 s.e)) (add32 (chF s.e s.f s.g) kw.1)) kw.2
  let t2 := add32 (bigSigma0 s.a) (majF s.a s.b s.c)
  ⟨add32 t1 t2, s.a, s.b, s.c, add32 s.d t1, s.e, s.f, s.g⟩

/-- Convert 4 bytes (big-endian) at a time into 32-bit words. -/
def bytesToWords : List Nat → List Nat
  | b0 :: b1 :: b2 :: b3 :: rest => (((b0 * 256 + b1) * 256 + b2) * 256 + b3) :: bytesToWords rest
  | _ => []

def shaCompress (h : Sha8) (block : List Nat) : Sha8 :=
  let ws := (extendWR (bytesToWords block).reverse 48).reverse
  let s := (shaK.zip ws).foldl shaRound h
  ⟨add32 h.a s.a, add32 h.b s.b, add32 h.c s.c, add32 h.d s.d,
   add32 h.e s.e, add32 h.f s.f, add32 h.g s.g, add32 h.h s.h⟩

/-- Split a byte list into 64-byte chunks (fuel-driven structural recursion). -/
def chunks64 : Nat → List Nat → List (List Nat)
  | 0, _ => []
  | _, [] => []
  | fuel + 1, bs => bs.take 64 :: chunks64 fuel (bs.drop 64)

/-- SHA-256 padding: append 0x80, zeros, and the 64-bit big-endian bit length. -/
def shaPad (msg : List Nat) : List Nat :=
  let len := msg.length
  let zeros := (119 - (len % 64)) % 64
  let bits := 8 * len
  msg ++ [128] ++ List.replicate zeros 0 ++
    [(bits >>> 56) % 256, (bits >>> 48) % 256, (bits >>> 40) % 256, (bits >>> 32) % 256,
     (bits >>> 24) % 256, (bits >>> 16) % 256, (bits >>> 8) % 256, bits % 256]

def wordBytes (x : Nat) : List Nat :=
  [(x >>> 24) % 256, (x >>> 16) % 256, (x >>> 8) % 256, x % 256]

/-- The SHA-256 initial hash value (FIPS 180-4, §5.3.3), in decimal. -/
def shaH0 : Sha8 :=
  ⟨1779033703, 3144134277, 1013904242, 2773480762,
   1359893119, 2600822924, 528734635, 1541459225⟩

/-- SHA-256 digest (32 bytes) of a byte list. Models `hashlib.sha256(...).digest()`. -/
def sha256 (msg : List Nat) : List Nat :=
  let padded := shaPad msg
  let s := (chunks64 padded.length padded).foldl shaCompress shaH0
  wordBytes s.a ++ wordBytes s.b ++ wordBytes s.c ++ wordBytes s.d ++
  wordBytes s.e ++ wordBytes s.f ++ wordBytes s.g ++ wordBytes s.h

/-- HMAC-SHA256 (RFC 2104) of a message under a key, both byte lists.
Models `hmac.new(key, msg, hashlib.sha256).digest()`. -/
def hmacSha256 (key msg : List Nat) : List Nat :=
  let k0 := if 64 < key.length then sha256 key else key
  let kp := k0 ++ List.replicate (64 - k0.length) 0
  let ipad := kp.map (fun b => b ^^^ 0x36)
  let opad := kp.map (fun b => b ^^^ 0x5c)
  sha256 (opad ++ sha256 (ipad ++ msg))

def hexDigit (n : Nat) : Char :=
  if n < 10 then Char.ofNat (48 + n) else Char.ofNat (87 + n)

/-- Lowercase hexadecimal rendering of a byte list (`.hexdigest()`). -/
def bytesToHex (bs : List Nat) : String :=
  String.mk ((bs.map (fun b => [hexDigit (b / 16), hexDigit (b % 16)])).flatten)

example : bytesToHex (sha256 (utf8 "abc")) =
    "ba7816bf8f01cfea414140de5dae2223b00361a396177a9cb410ff61f20015ad" := by decide

example : bytesToHex (sha256 (utf8 "")) =
    "e3b0c44298fc1c149afbf4c8996fb92427ae41e4649b934ca495991b7852b855" := by decide

example : bytesToHex (hmacSha256 (utf8 "key") (utf8 "The quick brown fox jumps over the lazy dog")) =
    "f7bc83f430538424b13298e6aa6fb143ef4d59a14946175997479dbc2d1a3cd8" := by decide

/-! ## URL decoding (`urllib.parse.unquote_plus`) -/

def hexVal (c : Char) : Option Nat :=
  if '0' ≤ c ∧ c ≤ '9' then some (c.toNat - 48)
  else if 'a' ≤ c ∧ c ≤ 'f' then some (c.toNat - 87)
  else if 'A' ≤ c ∧ c ≤ 'F' then some (c.toNat - 55)
  else none

/-- Collect the maximal leading run of valid `%HH` escapes as bytes. -/
def takeBytes : List Char → List Nat × List Char
  | '%' :: a :: b :: rest =>
    match hexVal a, hexVal b with
    | some x, some y =>
      let r := takeBytes rest
      ((16 * x + y) :: r.1, r.2)
    | _, _ => ([], '%' :: a :: b :: rest)
  | cs => ([], cs)

def replChar : Char := Char.ofNat 0xFFFD

def isCont (b : Nat) : Bool := 128 ≤ b && b < 192

/-- Incremental UTF-8 decoding of a byte list with U+FFFD replacement on
malformed sequences, as Python's `bytes.decode('utf-8', errors='replace')`
(modelled: malformed input consumes one byte per replacement). -/
def utf8DecodeAux : Nat → List Nat → List Char
  | 0, _ => []
  | _, [] => []
  | fuel + 1, b :: bs =>
    if b < 128 then Char.ofNat b :: utf8DecodeAux fuel bs
    else if 194 ≤ b && b ≤ 223 then
      match bs with
      | b1 :: bs1 =>
        if isCont b1 then Char.ofNat ((b - 192) * 64 + (b1 - 128)) :: utf8DecodeAux fuel bs1
        else replChar :: utf8DecodeAux fuel bs
      | [] => [replChar]
    else if 224 ≤ b && b ≤ 239 then
      match bs with
      | b1 :: b2 :: bs2 =>
        if isCont b1 && isCont b2 then
          let cp := (b - 224) * 4096 + (b1 - 128) * 64 + (b2 - 128)
          if cp < 2048 || (55296 ≤ cp && cp ≤ 57343) then replChar :: utf8DecodeAux fuel bs
          else Char.ofNat cp :: utf8DecodeAux fuel bs2
        else replChar :: utf8DecodeAux fuel bs
      | _ => replChar :: utf8DecodeAux fuel bs
    else if 240 ≤ b && b ≤ 244 then
      match bs with
      | b1 :: b2 :: b3 :: bs3 =>
        if isCont b1 && isCont b2 && isCont b3 then
          let cp := (b - 240) * 262144 + (b1 - 128) * 4096 + (b2 - 128) * 64 + (b3 - 128)
          if cp < 65536 || 1114111 < cp then replChar :: utf8DecodeAux fuel bs
          else Char.ofNat cp :: utf8DecodeAux fuel bs3
        else replChar :: utf8DecodeAux fuel bs
      | _ => replChar :: utf8DecodeAux fuel bs
    else replChar :: utf8DecodeAux fuel bs

def utf8Decode (bs : List Nat) : List Char := utf8DecodeAux bs.length bs

/-- Models `urllib.parse.unquote(s, errors='replace')`: percent-escape runs are
decoded as UTF-8 byte sequences, invalid escapes stay literal. -/
def pyUnquoteAux : Nat → List Char → List Char
  | 0, _ => []
  | _, [] => []
  | fuel + 1, '%' :: a :: b :: rest =>
    (match hexVal a, hexVal b with
     | some _, some _ =>
       let r := takeBytes ('%' :: a :: b :: rest)
       utf8Decode r.1 ++ pyUnquoteAux fuel r.2
     | _, _ => '%' :: pyUnquoteAux fuel (a :: b :: rest))
  | fuel + 1, c :: rest => c :: pyUnquoteAux fuel rest

def pyUnquote (s : String) : String := String.mk (pyUnquoteAux s.data.length s.data)

/-- Models `urllib.parse.unquote_plus`: `+` becomes a space, then unquote. -/
def pyUnquotePlus (s : String) : String :=
  pyUnquote (String.mk (s.data.map (fun c => if c = '+' then ' ' else c)))

example : pyUnquotePlus "a%7B%22id%22%3A7%7D+b%C3%A9" = "a\x7b\"id\":7\x7d bé" := by decide

/-! ## `urllib.parse.parse_qs` -/

/-- `name_value.split('=', 1)`: split a char list at the first `=`. -/
def splitFirstEqAux : List Char → Option (List Char × List Char)
  | [] => none
  | '=' :: rest => some ([], rest)
  | c :: rest => (splitFirstEqAux rest).map (fun p => (c :: p.1, p.2))

/-- Python `s.split(sep)` over char lists: split at every separator, keeping
empty pieces. -/
def splitOnChar (sep : Char) : List Char → List (List Char)
  | [] => [[]]
  | c :: rest =>
    let r := splitOnChar sep rest
    if c = sep then [] :: r
    else
      match r with
      | h :: t => (c :: h) :: t
      | [] => [[c]]

/-- Models `urllib.parse.parse_qsl(qs)` with default arguments: split the query
on `&`, skip empty segments, segments without `=` and blank values
(`keep_blank_values=False`), and URL-decode names and values. -/
def parseQsl (qs : String) : List (String × String) :=
  (splitOnChar '&' qs.data).filterMap (fun piece =>
    match splitFirstEqAux piece with
    | none => none
    | some (k, v) =>
      if v = [] then none
      else some (pyUnquotePlus (String.mk k), pyUnquotePlus (String.mk v)))

/-- Sequential multi-dict insertion (Python dict: first-occurrence key order,
values appended in encounter order). -/
def addPair (acc : List (String × List String)) (k v : String) : List (String × List String) :=
  match acc with
  | [] => [(k, [v])]
  | (k1, vs) :: rest => if k1 == k then (k1, vs ++ [v]) :: rest else (k1, vs) :: addPair rest k v

/-- Models `urllib.parse.parse_qs(qs)`: the multi-dict built from `parse_qsl`. -/
def groupMulti (ps : List (String × String)) : List (String × List String) :=
  ps.foldl (fun acc p => addPair acc p.1 p.2) []

def getMulti (g : List (String × List String)) (k : String) : Option (List String) :=
  (g.find? (fun e => e.1 == k)).map (fun e => e.2)

/-- `parsed_data.get(k, [None])[0]`: the first value stored under `k`. -/
def getFirst (g : List (String × List String)) (k : String) : Option String :=
  match getMulti g k with
  | some (v :: _) => some v
  | _ => none

example : groupMulti (parseQsl "a=1&b=&a=2&hash=XYZ") = [("a", ["1", "2"]), ("hash", ["XYZ"])] := by decide

/-! ## Sorting key/value pairs (Python `list.sort` on tuples) -/

/-- Python string `<`: lexicographic comparison of code points. -/
def strLtChars : List Char → List Char → Bool
  | [], [] => false
  | [], _ :: _ => true
  | _ :: _, [] => false
  | a :: as, b :: bs =>
    if a.toNat < b.toNat then true
    else if b.toNat < a.toNat then false
    else strLtChars as bs

def strLtB (a b : String) : Bool := strLtChars a.data b.data

/-- Python tuple ordering `(k, v) <= (k', v')` as a Bool. -/
def pairLeB (a b : String × String) : Bool :=
  if a.1 == b.1 then !(strLtB b.2 a.2) else strLtB a.1 b.1

def insertPair (x : String × String) : List (String × String) → List (String × String)
  | [] => [x]
  | y :: ys => if pairLeB x y then x :: y :: ys else y :: insertPair x ys

/-- Stable insertion sort under Python tuple ordering (models `data_pairs.sort()`). -/
def sortPairs : List (String × String) → List (String × String)
  | [] => []
  | x :: xs => insertPair x (sortPairs xs)

/-- `'\n'.join(...)`: newline-joined, no trailing newline. -/
def joinNl : List String → String
  | [] => ""
  | [s] => s
  | s :: rest => s ++ "\n" ++ joinNl rest

/-- Render sorted pairs as the data-check string `key=value` lines. -/
def renderPairs (ps : List (String × String)) : String :=
  joinNl (ps.map (fun p => p.1 ++ "=" ++ p.2))

example : renderPairs (sortPairs [("b", "2"), ("a", "1")]) = "a=1\nb=2" := by decide

/-! ## JSON (`json.loads`) -/

inductive Json where
  | null
  | bool (b : Bool)
  | num (n : Int)
  | str (s : String)
  | arr (elems : List Json)
  | obj (fields : List (String × Json))

def jsonWs (c : Char) : Bool := c == ' ' || c == '\t' || c == '\n' || c == '\r'

/-- JSON string body up to the closing quote (string escapes are outside the
modelled fragment and make the parse fail). -/
def pStringAux : List Char → Option (List Char × List Char)
  | [] => none
  | '"' :: rest => some ([], rest)
  | '\\' :: _ => none
  | c :: rest => (pStringAux rest).map (fun p => (c :: p.1, p.2))

def digitVal (c : Char) : Option Nat :=
  if '0' ≤ c ∧ c ≤ '9' then some (c.toNat - 48) else none

def pDigitsAux : List Char → Nat → Nat × List Char
  | [], acc => (acc, [])
  | c :: rest, acc =>
    match digitVal c with
    | some d => pDigitsAux rest (acc * 10 + d)
    | none => (acc, c :: rest)

/-- Recursive-descent JSON value: a fuel-driven model of `json.loads` for the
standard grammar restricted to integer numerals and escape-free strings. -/
def pValue : Nat → List Char → Option (Json × List Char)
  | 0, _ => none
  | fuel + 1, cs0 =>
    match cs0.dropWhile jsonWs with
    | [] => none
    | '{' :: rest =>
      (match rest.dropWhile jsonWs with
       | '}' :: r => some (.obj [], r)
       | '"' :: r0 =>
         (match pStringAux r0 with
          | none => none
          | some (kcs, r1) =>
            match r1.dropWhile jsonWs with
            | ':' :: r2 =>
              (match pValue fuel r2 with
               | none => none
               | some (v, r3) =>
                 match r3.dropWhile jsonWs with
                 | ',' :: r4 =>
                   (match pValue fuel ('{' :: r4) with
                    | some (.obj fields, r5) => some (.obj ((String.mk kcs, v) :: fields), r5)
                    | _ => none)
                 | '}' :: r4 => some (.obj [(String.mk kcs, v)], r4)
                 | _ => none)
            | _ => none)
       | _ => none)
    | '[' :: rest =>
      (match rest.dropWhile jsonWs with
       | ']' :: r => some (.arr [], r)
       | _ =>
         match pValue fuel rest with
         | none => none
         | some (v, r1) =>
           match r1.dropWhile jsonWs with
           | ',' :: r2 =>
             (match pValue fuel ('[' :: r2) with
              | some (.arr elems, r3) => some (.arr (v :: elems), r3)
              | _ => none)
           | ']' :: r2 => some (.arr [v], r2)
           | _ => none)
    | 'n' :: 'u' :: 'l' :: 'l' :: r => some (.null, r)
    | 't' :: 'r' :: 'u' :: 'e' :: r => some (.bool true, r)
    | 'f' :: 'a' :: 'l' :: 's' :: 'e' :: r => some (.bool false, r)
    | '"' :: r0 => (pStringAux r0).map (fun p => (.str (String.mk p.1), p.2))
    | '-' :: c :: rest =>
      (match digitVal c with
       | some d =>
         let p := pDigitsAux rest d
         some (.num (-(p.1 : Int)), p.2)
       | none => none)
    | c :: rest =>
      match digitVal c with
      | some d =>
        let p := pDigitsAux rest d
        some (.num (p.1 : Int), p.2)
      | none => none

/-- Models `json.loads` (restricted to integer numerals and escape-free
strings): parse one value and require only whitespace after it. -/
def jsonParse (s : String) : Option Json :=
  match pValue (s.data.length + 1) s.data with
  | some (v, rest) => if rest.dropWhile jsonWs = [] then some v else none
  | none => none

example : jsonParse "\x7b\"id\":7,\"username\":\"bob\"\x7d" =
    some (.obj [("id", .num 7), ("username", .str "bob")]) := rfl

example : jsonParse "\x7b\"id\":-5, \"ok\":true\x7d" =
    some (.obj [("id", .num (-5)), ("ok", .bool true)]) := rfl

example : jsonParse "not json" = none := rfl

/-- `dict.get` on a decoded JSON object: `json.loads` keeps the last value of a
duplicated key. -/
def jsonGet (fields : List (String × Json)) (k : String) : Option Json :=
  (fields.reverse.find? (fun f => f.1 == k)).map (fun f => f.2)

/-- Python truthiness of a decoded JSON value. -/
def jsonFalsy : Json → Bool
  | .null => true
  | .bool b => !b
  | .num n => n == 0
  | .str s => s == ""
  | .arr es => es.isEmpty
  | .obj fs => fs.isEmpty

/-- Python `str()` of a decoded JSON value; only numbers and strings are
exercised by the routes (`str(telegram_user_id)`). -/
def pyStr : Json → String
  | .null => "None"
  | .bool true => "True"
  | .bool false => "False"
  | .num n => toString n
  | .str s => s
  | .arr _ => "<list>"
  | .obj _ => "<dict>"

/-! ## HTTP error model -/

/-- A FastAPI `HTTPException(status_code, detail)`. -/
structure Herr where
  status : Nat
  detail : String
deriving DecidableEq

/-! ## Telegram WebApp verifier (`verify_telegram_webapp_data`, lines 230–316) -/

/-- The fallback parsing branch (lines 272–284): raw split on `&`, keep pieces
containing `=` that do not start with `hash=`, split at the first `=`,
without URL-decoding. -/
def altPairs (init_data : String) : List (String × String) :=
  (splitOnChar '&' init_data.data).filterMap (fun piece =>
    if piece.contains '=' && !(List.isPrefixOf "hash=".data piece) then
      match splitFirstEqAux piece with
      | some (k, v) => some (String.mk k, String.mk v)
      | none => none
    else none)

/-- How `verify_telegram_webapp_data` can fail: by raising an
`HTTPException` of its own, or by an uncaught Python-level `TypeError` from
`hmac.compare_digest` escaping it. -/
inductive VerifyErr where
  | http (e : Herr)
  | typeError
deriving DecidableEq

/-- Python-ASCII test: every code point below 128. -/
def isAsciiStr (s : String) : Bool := s.data.all (fun c => c.toNat < 128)

/-- Models `hmac.compare_digest` on `str` arguments: equality when both
strings are ASCII-only (its constant-time execution is a timing property
with no functional content); a non-ASCII argument raises
`TypeError: comparing strings with non-ASCII characters is not supported`. -/
def compare_digest (a b : String) : Except Unit Bool :=
  if isAsciiStr a && isAsciiStr b then .ok (a == b) else .error ()

/-- Embeds `verify_telegram_webapp_data(init_data, bot_token)`: parse the
URL-encoded payload, extract `hash`, build the sorted newline-joined
data-check string from the remaining first-values, HMAC-SHA256 it under
SHA-256(bot token), compare via `compare_digest`, then decode the `user`
JSON field. A `TypeError` from `compare_digest` (non-ASCII received hash)
escapes the function as `.error .typeError`. -/
def verify_telegram_webapp_data (init_data bot_token : String) : Except VerifyErr Json :=
  if bot_token = "" then .error (.http ⟨500, "Bot token not configured"⟩)
  else if init_data = "" then .error (.http ⟨401, "No init data provided"⟩)
  else
    let parsed := groupMulti (parseQsl init_data)
    match getFirst parsed "hash" with
    | none => .error (.http ⟨401, "Missing hash in initData"⟩)
    | some hash_value =>
      let data_pairs := parsed.filterMap (fun g =>
        if g.1 != "hash" && !g.2.isEmpty then some (g.1, g.2.headD "") else none)
      let dcs0 := renderPairs (sortPairs data_pairs)
      let dcs := if dcs0 = "" then renderPairs (sortPairs (altPairs init_data)) else dcs0
      let secret_key := sha256 (utf8 bot_token)
      let computed_hash := bytesToHex (hmacSha256 secret_key (utf8 dcs))
      match compare_digest hash_value computed_hash with
      | .error () => .error .typeError
      | .ok ok =>
        if !ok then .error (.http ⟨401, "Invalid signature"⟩)
        else
          match getFirst parsed "user" with
          | none => .error (.http ⟨401, "Missing user data"⟩)
          | some user_data =>
            match jsonParse user_data with
            | some u => .ok u
            | none => .error (.http ⟨401, "Invalid user data format"⟩)

/-- Bot token used by the concrete verification instances below. -/
def tokGold : String := "123456:TestToken"

example : verify_telegram_webapp_data
    ("user=%7B%22id%22%3A7%7D&b=&hash=a4a39def80d431bebebe3c2a58810678269458e3c42f271068649583b081300c")
    tokGold = .ok (.obj [("id", .num 7)]) := rfl

/-! ## Password hasher (passlib `CryptContext(schemes=["argon2"])`) -/

/-- Deterministic model of `get_password_hash` (passlib argon2). The real
hasher salts randomly; the claims only rely on the hash/verify contract
(spec 4.1): `verify(p, hash(p))` succeeds and the digest is opaque. -/
def get_password_hash (p : String) : String := "$argon2$" ++ p

/-- Model of `verify_password` (passlib `CryptContext.verify`). -/
def verify_password (plain hashed : String) : Bool := ("$argon2$" ++ plain) == hashed

/-! ## JWT (python-jose, HS256) -/

/-- `SECRET_KEY = os.getenv("SECRET_KEY", "fallback-secret-key")` — the
source's default, used when the environment variable is unset. -/
def SECRET_KEY : String := "fallback-secret-key"

def headerJson : String := "\x7b\"alg\":\"HS256\",\"typ\":\"JWT\"\x7d"

/-- Compact JSON of the claims dict `{"sub": ..., "exp": ...}` in insertion
order, as `json.dumps(..., separators=(",", ":"))` renders it. -/
def payloadJson (sub : Option String) (exp : Int) : String :=
  match sub with
  | some s => "\x7b\"sub\":\"" ++ s ++ "\",\"exp\":" ++ toString exp ++ "\x7d"
  | none => "\x7b\"exp\":" ++ toString exp ++ "\x7d"

def b64Char (n : Nat) : Char :=
  if n < 26 then Char.ofNat (65 + n)
  else if n < 52 then Char.ofNat (97 + n - 26)
  else if n < 62 then Char.ofNat (48 + n - 52)
  else if n = 62 then '-' else '_'

/-- Base64url without padding (the JWS segment encoding). -/
def b64urlAux : List Nat → List Char
  | b0 :: b1 :: b2 :: rest =>
    b64Char (b0 / 4) :: b64Char ((b0 % 4) * 16 + b1 / 16) ::
      b64Char ((b1 % 16) * 4 + b2 / 64) :: b64Char (b2 % 64) :: b64urlAux rest
  | [b0, b1] => [b64Char (b0 / 4), b64Char ((b0 % 4) * 16 + b1 / 16), b64Char ((b1 % 16) * 4)]
  | [b0] => [b64Char (b0 / 4), b64Char ((b0 % 4) * 16)]
  | [] => []

def b64url (bs : List Nat) : String := String.mk (b64urlAux bs)

def jwtSigningInput (sub : Option String) (exp : Int) : String :=
  b64url (utf8 headerJson) ++ "." ++ b64url (utf8 (payloadJson sub exp))

/-- The HS256 signature segment over the compact signing input. -/
def jwtSign (sub : Option String) (exp : Int) : String :=
  b64url (hmacSha256 (utf8 SECRET_KEY) (utf8 (jwtSigningInput sub exp)))

/-- A token as structured claims plus its signature segment (the compact
string is never reparsed by the routes, so the claims are kept structured). -/
structure Jwt where
  sub : Option String
  exp : Int
  sig : String
deriving DecidableEq

/-- Embeds `create_access_token(data)` (lines 197–201) for the only call shape
used, `{"sub": subject}`: expiry is now + 60 minutes, signed HS256. -/
def create_access_token (sub : String) (now : Int) : Jwt :=
  ⟨some sub, now + 60 * 60, jwtSign (some sub) (now + 60 * 60)⟩

inductive JwtErr where
  | invalidSignature
  | expired
deriving DecidableEq

/-- Models `jose.jwt.decode(token, SECRET_KEY, algorithms=["HS256"])`:
signature check first, then `exp` validation — `ExpiredSignatureError` iff
`exp < now` (integer seconds, zero leeway). -/
def jwt_decode (t : Jwt) (now : Int) : Except JwtErr (Option String × Int) :=
  if t.sig ≠ jwtSign t.sub t.exp then .error .invalidSignature
  else if t.exp < now then .error .expired
  else .ok (t.sub, t.exp)

/-- Embeds `read_users_me` (lines 383–392): decode, then 401 unless the `sub`
claim is present and non-empty (Python truthiness). -/
def read_users_me (t : Jwt) (now : Int) : Except Herr String :=
  match jwt_decode t now with
  | .error _ => .error ⟨401, "Invalid token"⟩
  | .ok (sub, _) =>
    match sub with
    | none => .error ⟨401, "Invalid token"⟩
    | some s => if s = "" then .error ⟨401, "Invalid token"⟩ else .ok s

example : read_users_me (create_access_token "alice" 1000) 1500 = .ok "alice" := rfl

/-! ## Relational store (`users` and `telegram_links` tables) -/

/-- A `users` row (the event and legacy link columns are not used by the
modelled routes and are omitted). `hide_done` is the source's 0/1 integer. -/
structure UserRec where
  id : Nat
  username : String
  hashed_password : String
  theme : String
  hide_done : Nat
  timezone : String
  telegram_chat_id : Option String
  telegram_username : Option String
deriving DecidableEq

/-- The stored `expires_at` ISO string, abstracted by what
`datetime.fromisoformat` does with it: absent (NULL), empty, parseable to a
UTC instant (`Int` seconds), or unparseable. -/
inductive ExpVal where
  | nullv
  | emptyStr
  | iso (t : Int)
  | corrupt
deriving DecidableEq

/-- A `telegram_links` row; `used` is the source's 0/1 integer. -/
structure LinkRec where
  id : Nat
  user_id : Nat
  code : String
  expires_at : ExpVal
  used : Nat
deriving DecidableEq

/-- The relational store, with sequential primary keys. Row order models the
unordered `.first()` scan order of the SQL store. -/
structure AuthDb where
  users : List UserRec
  links : List LinkRec
  next_user_id : Nat
  next_link_id : Nat
deriving DecidableEq

def emptyDb : AuthDb := ⟨[], [], 1, 1⟩

/-- `db.query(User).filter(User.username == name).first()`. -/
def findUserByName (db : AuthDb) (name : String) : Option UserRec :=
  db.users.find? (fun u => u.username == name)

/-- `db.query(User).filter(User.id == uid).first()`. -/
def findUserById (db : AuthDb) (uid : Nat) : Option UserRec :=
  db.users.find? (fun u => u.id == uid)

/-- `db.query(User).filter(User.telegram_chat_id == sid).first()`. -/
def findUserByChat (db : AuthDb) (sid : String) : Option UserRec :=
  db.users.find? (fun u => u.telegram_chat_id == some sid)

/-- `db.query(TelegramLink).filter(TelegramLink.code == code).first()`. -/
def findLinkByCode (db : AuthDb) (code : String) : Option LinkRec :=
  db.links.find? (fun l => l.code == code)

/-! ## Auth routes (`register`, `login`) -/

def pySpace (c : Char) : Bool :=
  c == ' ' || c == '\t' || c == '\n' || c == '\r' || c == '\x0b' || c == '\x0c'

/-- Python `str.strip()` (ASCII whitespace; the exotic Unicode spaces Python
also strips are outside the modelled fragment). -/
def pyStrip (s : String) : String :=
  String.mk (((s.data.dropWhile pySpace).reverse.dropWhile pySpace).reverse)

/-- Embeds `register` (lines 342–371): validate Python-truthiness and trimmed
lengths (`len` counts characters), reject duplicates, store the hash of the
trimmed password. All failures are `HTTPException(400, ...)`. -/
def register (username password : String) (db : AuthDb) : Except Herr Unit × AuthDb :=
  if pyStrip username = "" then (.error ⟨400, "username required"⟩, db)
  else if pyStrip password = "" then (.error ⟨400, "password required"⟩, db)
  else
    let u := pyStrip username
    let p := pyStrip password
    if 150 < u.length then (.error ⟨400, "username too long (max 150 characters)"⟩, db)
    else if 72 < p.length then (.error ⟨400, "password too long (max 72 characters)"⟩, db)
    else
      match findUserByName db u with
      | some _ => (.error ⟨400, "Username already registered"⟩, db)
      | none =>
        let nu : UserRec :=
          ⟨db.next_user_id, u, get_password_hash p, "dark", 0, "Europe/Amsterdam", none, none⟩
        (.ok (), { db with users := db.users ++ [nu], next_user_id := db.next_user_id + 1 })

/-- Embeds `login` (lines 374–380): undifferentiated 401 on lookup miss or
hash mismatch, otherwise a token with the stored username as subject. -/
def login (username password : String) (now : Int) (db : AuthDb) : Except Herr Jwt :=
  match findUserByName db username with
  | none => .error ⟨401, "Invalid credentials"⟩
  | some u =>
    if verify_password password u.hashed_password then .ok (create_access_token u.username now)
    else .error ⟨401, "Invalid credentials"⟩

/-! ## Telegram link routes -/

/-- Embeds `telegram_link` (lines 632–648) for an authenticated user `uid`:
mark all unused codes of the user as used, insert a fresh unused code with
expiry now + 15 minutes. The generated `str(uuid.uuid4())[:8]` code is a
parameter; the `code` column's unique constraint is modelled by failing (the
route has no handler, so the violation surfaces as a 500) when it repeats. -/
def telegram_link (uid : Nat) (code : String) (now : Int) (db : AuthDb) :
    Except Herr (String × Int) × AuthDb :=
  if (findLinkByCode db code).isSome then (.error ⟨500, "IntegrityError"⟩, db)
  else
    let marked := db.links.map (fun l =>
      if l.user_id == uid && l.used == 0 then { l with used := 1 } else l)
    let expires := now + 15 * 60
    let link : LinkRec := ⟨db.next_link_id, uid, code, .iso expires, 0⟩
    (.ok (code, expires),
     { db with links := marked ++ [link], next_link_id := db.next_link_id + 1 })

/-- `POST /telegram/confirm` request body. -/
structure TgConfirmIn where
  code : String
  telegram_id : Int
  telegram_username : Option String
deriving DecidableEq

/-- The expiry test of `telegram_confirm` (lines 684–691): skipped when the
stored string is falsy (NULL or empty); a parseable instant is expired iff it
is strictly before now; an unparseable one is treated as already expired
(the except-branch substitutes `utcnow() - 1s`, which the immediately
following comparison against `utcnow()` always flags). -/
def linkExpired (e : ExpVal) (now : Int) : Bool :=
  match e with
  | .nullv => false
  | .emptyStr => false
  | .iso t => decide (t < now)
  | .corrupt => true

/-- `if payload.telegram_username: user.telegram_username = ...` — the
username is overwritten only by a truthy (present, non-empty) value. -/
def pickUname (incoming old : Option String) : Option String :=
  match incoming with
  | some tu => if tu = "" then old else some tu
  | none => old

/-- Embeds `telegram_confirm` (lines 670–705): look up the code, reject used
and expired codes, then bind the Telegram chat id (and non-empty username)
to the owning user and mark the code used, in one commit. -/
def telegram_confirm (payload : TgConfirmIn) (now : Int) (db : AuthDb) :
    Except Herr Unit × AuthDb :=
  match findLinkByCode db payload.code with
  | none => (.error ⟨404, "Code not found"⟩, db)
  | some link =>
    if link.used != 0 then (.error ⟨400, "Code already used"⟩, db)
    else if linkExpired link.expires_at now then (.error ⟨400, "Code expired"⟩, db)
    else
      match findUserById db link.user_id with
      | none => (.error ⟨404, "User not found"⟩, db)
      | some user =>
        let user1 := { user with
          telegram_chat_id := some (toString payload.telegram_id),
          telegram_username := pickUname payload.telegram_username user.telegram_username }
        (.ok (),
         { db with
           users := db.users.map (fun u => if u.id == user.id then user1 else u),
           links := db.links.map (fun l => if l.id == link.id then { l with used := 1 } else l) })

/-- `user_data.get('username')` as stored into the nullable string column:
only a JSON string value survives the round trip. -/
def jsonUsernameOpt (fields : List (String × Json)) : Option String :=
  match jsonGet fields "username" with
  | some (.str s) => some s
  | _ => none

/-- Embeds `telegram_webapp_login` (lines 708–763). The random generated
password is a parameter (`rnd_password`); the `users.username` unique
constraint is modelled as the 500 the route's blanket handler returns on an
`IntegrityError`; a non-object `user` JSON makes `.get` raise, which the same
handler also turns into a 500, as does a `TypeError` escaping the verifier
(the route re-raises `HTTPException`s and wraps any other exception as
`HTTPException(500, "Login failed: " + str(e))`). -/
def telegram_webapp_login (initData bot_token rnd_password : String) (now : Int) (db : AuthDb) :
    Except Herr Jwt × AuthDb :=
  match verify_telegram_webapp_data initData bot_token with
  | .error (.http e) => (.error e, db)
  | .error .typeError =>
    (.error ⟨500, "Login failed: comparing strings with non-ASCII characters is not supported"⟩,
     db)
  | .ok user_data =>
    match user_data with
    | .obj fields =>
      (match jsonGet fields "id" with
       | none => (.error ⟨401, "Missing user ID in Telegram data"⟩, db)
       | some idv =>
         if jsonFalsy idv then (.error ⟨401, "Missing user ID in Telegram data"⟩, db)
         else
           let sid := pyStr idv
           match findUserByChat db sid with
           | some u => (.ok (create_access_token u.username now), db)
           | none =>
             let uname := "tg_" ++ sid
             if (findUserByName db uname).isSome then
               (.error ⟨500, "Login failed: IntegrityError"⟩, db)
             else
               let nu : UserRec :=
                 ⟨db.next_user_id, uname, get_password_hash rnd_password, "dark", 0,
                  "Europe/Amsterdam", some sid, jsonUsernameOpt fields⟩
               (.ok (create_access_token uname now),
                { db with users := db.users ++ [nu], next_user_id := db.next_user_id + 1 }))
    | _ => (.error ⟨500, "Login failed: AttributeError"⟩, db)

/-! ## Helper lemmas -/

/-- Unused link codes per user: the quantity the single-active-code invariant
speaks about. -/
def countUnused (db : AuthDb) (uid : Nat) : Nat :=
  db.links.countP (fun l => l.user_id == uid && l.used == 0)

theorem find?_map_of_pred {α : Type} (f : α → α) (p : α → Bool) (l : List α)
    (h : ∀ x, p (f x) = p x) : (l.map f).find? p = (l.find? p).map f := by
  rw [List.find?_map]
  have : (p ∘ f) = p := funext h
  rw [this]

theorem markUnused_code (uid : Nat) (l : LinkRec) :
    (if l.user_id == uid && l.used == 0 then { l with used := 1 } else l).code = l.code := by
  by_cases h : (l.user_id == uid && l.used == 0) = true
  · simp [h]
  · simp [h]

theorem markUsedById_code (lid : Nat) (l : LinkRec) :
    (if l.id == lid then { l with used := 1 } else l).code = l.code := by
  by_cases h : (l.id == lid) = true
  · simp [h]
  · simp [h]

theorem countP_markUnused_self (uid : Nat) (links : List LinkRec) :
    (links.map (fun l => if l.user_id == uid && l.used == 0 then { l with used := 1 } else l)).countP
      (fun l => l.user_id == uid && l.used == 0) = 0 := by
  rw [List.countP_eq_zero]
  intro a ha
  rcases List.mem_map.mp ha with ⟨x, hx, rfl⟩
  cases hux : (x.user_id == uid && x.used == 0) with
  | true => simp [hux]
  | false => simp [hux]

theorem countP_markUnused_other (uid uid2 : Nat) (h : uid2 ≠ uid) (links : List LinkRec) :
    (links.map (fun l => if l.user_id == uid && l.used == 0 then { l with used := 1 } else l)).countP
      (fun l => l.user_id == uid2 && l.used == 0) =
      links.countP (fun l => l.user_id == uid2 && l.used == 0) := by
  induction links with
  | nil => rfl
  | cons x xs ih =>
    cases hux : (x.user_id == uid && x.used == 0) with
    | true =>
      obtain ⟨hx1, hx2⟩ : x.user_id = uid ∧ x.used = 0 := by simpa using hux
      have hne : x.user_id ≠ uid2 := by rw [hx1]; exact fun e => h e.symm
      rw [List.map_cons, if_pos hux, List.countP_cons, List.countP_cons, ih]
      simp [hne]
    | false =>
      rw [List.map_cons, if_neg (by simp [hux]), List.countP_cons, List.countP_cons, ih]

theorem find?_code_mark_unused (uid : Nat) (c : String) (links : List LinkRec) :
    (links.map (fun l => if l.user_id == uid && l.used == 0 then { l with used := 1 } else l)).find?
      (fun l => l.code == c) =
    (links.find? (fun l => l.code == c)).map
      (fun l => if l.user_id == uid && l.used == 0 then { l with used := 1 } else l) := by
  apply find?_map_of_pred
  intro x
  rw [markUnused_code]

theorem telegram_link_eq (uid : Nat) (code : String) (now : Int) (db : AuthDb)
    (h : findLinkByCode db code = none) :
    telegram_link uid code now db =
      (.ok (code, now + 15 * 60),
       { db with
         links := (db.links.map (fun l =>
             if l.user_id == uid && l.used == 0 then { l with used := 1 } else l)) ++
           [⟨db.next_link_id, uid, code, .iso (now + 15 * 60), 0⟩],
         next_link_id := db.next_link_id + 1 }) := by
  unfold telegram_link
  rw [h]
  rfl

/-- C1: `POST /telegram/link` first marks every existing unused code of the
requesting user as used and then inserts one fresh unused code with expiry
now + 15 minutes, so afterwards the user has exactly one unused link record
(and no other user's unused count changes); consequently, after a second code
is issued for the same user, confirming the first code yields `AlreadyUsed`. -/
theorem requestCode_supersedes (uid : Nat) (c1 : String) (t1 : Int) (db : AuthDb)
    (h1 : findLinkByCode db c1 = none) :
    (telegram_link uid c1 t1 db).1 = .ok (c1, t1 + 15 * 60)
    ∧ countUnused (telegram_link uid c1 t1 db).2 uid = 1
    ∧ (∀ uid2, uid2 ≠ uid →
        countUnused (telegram_link uid c1 t1 db).2 uid2 = countUnused db uid2)
    ∧ (∀ c2 t2, findLinkByCode (telegram_link uid c1 t1 db).2 c2 = none →
        ∀ tg tun t3,
          (telegram_confirm ⟨c1, tg, tun⟩ t3
              (telegram_link uid c2 t2 (telegram_link uid c1 t1 db).2).2).1 =
            .error ⟨400, "Code already used"⟩) := by
  refine ⟨?_, ?_, ?_, ?_⟩
  · rw [telegram_link_eq uid c1 t1 db h1]
  · rw [telegram_link_eq uid c1 t1 db h1]
    unfold countUnused
    rw [List.countP_append, countP_markUnused_self]
    simp
  · intro uid2 hne
    rw [telegram_link_eq uid c1 t1 db h1]
    unfold countUnused
    rw [List.countP_append, countP_markUnused_other uid uid2 hne]
    have hb : (uid == uid2) = false := beq_eq_false_iff_ne.mpr (fun e => hne e.symm)
    simp [hb]
  · intro c2 t2 hf2 tg tun t3
    rw [telegram_link_eq uid c1 t1 db h1] at hf2 ⊢
    rw [telegram_link_eq uid c2 t2 _ hf2]
    unfold telegram_confirm findLinkByCode
    unfold findLinkByCode at h1
    rw [List.map_append, List.find?_append, List.find?_append,
      find?_code_mark_unused, find?_code_mark_unused, h1]
    simp

/-- C1 witness: issue two codes for user 1 from the empty store; the count is
one unused code after the first issuance and confirming the first code after
the second issuance is rejected as already used. -/
theorem requestCode_supersedes_witness :
    (telegram_link 1 "aaaa1111" 0 emptyDb).1 = .ok ("aaaa1111", 900)
    ∧ countUnused (telegram_link 1 "aaaa1111" 0 emptyDb).2 1 = 1
    ∧ (telegram_confirm ⟨"aaaa1111", 5, none⟩ 100
        (telegram_link 1 "bbbb2222" 50 (telegram_link 1 "aaaa1111" 0 emptyDb).2).2).1 =
      .error ⟨400, "Code already used"⟩ := by
  have h := requestCode_supersedes 1 "aaaa1111" 0 emptyDb (by decide)
  exact ⟨h.1, h.2.1, h.2.2.2 "bbbb2222" 50 (by decide) 5 none 100⟩

theorem find?_id_update_user (users : List UserRec) (u0 u1 : UserRec) (h : u1.id = u0.id)
    (tgt : Nat) :
    (users.map (fun u => if u.id == u0.id then u1 else u)).find? (fun u => u.id == tgt) =
    (users.find? (fun u => u.id == tgt)).map (fun u => if u.id == u0.id then u1 else u) := by
  apply find?_map_of_pred
  intro x
  by_cases hx : (x.id == u0.id) = true
  · rw [if_pos hx]
    have hxe : x.id = u0.id := by simpa using hx
    rw [h, ← hxe]
  · rw [if_neg hx]

theorem find?_code_mark_used_id (lid : Nat) (c : String) (links : List LinkRec) :
    (links.map (fun l => if l.id == lid then { l with used := 1 } else l)).find?
      (fun l => l.code == c) =
    (links.find? (fun l => l.code == c)).map
      (fun l => if l.id == lid then { l with used := 1 } else l) := by
  apply find?_map_of_pred
  intro x
  rw [markUsedById_code]

/-- C2: `confirmCode` returns `NotFound` iff no link record has the code;
given the found record, `AlreadyUsed` iff its used flag is set; if unused,
`Expired` iff the stored expiry makes `linkExpired` true at the current UTC
time (strictly-past instants and corrupt expiry strings; see `linkExpired`);
otherwise it succeeds, marks the code used and writes the Telegram chat id
(and the username when a non-empty one is supplied) onto the owning user, so
confirming the same code again yields `AlreadyUsed`. -/
theorem confirmCode_outcomes (payload : TgConfirmIn) (now : Int) (db : AuthDb)
    (hfk : ∀ l ∈ db.links, ∃ u ∈ db.users, u.id = l.user_id) :
    ((telegram_confirm payload now db).1 = .error ⟨404, "Code not found"⟩ ↔
      findLinkByCode db payload.code = none)
    ∧ (∀ link, findLinkByCode db payload.code = some link →
        (((telegram_confirm payload now db).1 = .error ⟨400, "Code already used"⟩) ↔
          link.used ≠ 0)
        ∧ (link.used = 0 →
            (((telegram_confirm payload now db).1 = .error ⟨400, "Code expired"⟩) ↔
              linkExpired link.expires_at now = true))
        ∧ (link.used = 0 → linkExpired link.expires_at now = false →
            (telegram_confirm payload now db).1 = .ok ()
            ∧ (findLinkByCode (telegram_confirm payload now db).2 payload.code).map
                LinkRec.used = some 1
            ∧ (findUserById (telegram_confirm payload now db).2 link.user_id).map
                UserRec.telegram_chat_id = some (some (toString payload.telegram_id))
            ∧ (∀ s, payload.telegram_username = some s → s ≠ "" →
                (findUserById (telegram_confirm payload now db).2 link.user_id).map
                  UserRec.telegram_username = some (some s))
            ∧ (∀ now2, (telegram_confirm payload now2 (telegram_confirm payload now db).2).1 =
                .error ⟨400, "Code already used"⟩))) := by
  constructor
  · cases hfind : findLinkByCode db payload.code with
    | none =>
      unfold telegram_confirm
      rw [hfind]
      simp
    | some link =>
      unfold telegram_confirm
      rw [hfind]
      dsimp only
      constructor
      · intro hres
        exfalso
        by_cases hu : (link.used != 0) = true
        · rw [if_pos hu] at hres
          simp at hres
        · rw [if_neg hu] at hres
          by_cases he : linkExpired link.expires_at now = true
          · rw [if_pos he] at hres
            simp at hres
          · rw [if_neg he] at hres
            cases hfu : findUserById db link.user_id with
            | none =>
              rw [hfu] at hres
              simp at hres
            | some user =>
              rw [hfu] at hres
              simp at hres
      · intro hnone
        exact Option.noConfusion hnone
  · intro link hfind
    refine ⟨?_, ?_, ?_⟩
    · unfold telegram_confirm
      rw [hfind]
      dsimp only
      cases hu : link.used with
      | zero =>
        rw [if_neg (by simp)]
        constructor
        · intro hres
          exfalso
          by_cases he : linkExpired link.expires_at now = true
          · rw [if_pos he] at hres
            simp at hres
          · rw [if_neg he] at hres
            cases hfu : findUserById db link.user_id with
            | none =>
              rw [hfu] at hres
              simp at hres
            | some user =>
              rw [hfu] at hres
              simp at hres
        · intro hres
          exact absurd rfl hres
      | succ n =>
        rw [if_pos (by simp)]
        simp
    · intro hu0
      unfold telegram_confirm
      rw [hfind]
      dsimp only
      rw [hu0, if_neg (by simp)]
      constructor
      · intro hres
        by_cases he : linkExpired link.expires_at now = true
        · exact he
        · exfalso
          rw [if_neg he] at hres
          cases hfu : findUserById db link.user_id with
          | none =>
            rw [hfu] at hres
            simp at hres
          | some user =>
            rw [hfu] at hres
            simp at hres
      · intro he
        rw [if_pos he]
    · intro hu0 he0
      have hmem : link ∈ db.links := List.mem_of_find?_eq_some hfind
      obtain ⟨u, humem, huid⟩ := hfk link hmem
      have hsome : (db.users.find? (fun x => x.id == link.user_id)).isSome :=
        List.find?_isSome.mpr ⟨u, humem, by simp [huid]⟩
      obtain ⟨user, huser⟩ := Option.isSome_iff_exists.mp hsome
      have huser2 : findUserById db link.user_id = some user := huser
      have hupd : telegram_confirm payload now db =
          (.ok (),
           { db with
             users := db.users.map (fun x =>
               if x.id == user.id then
                 { user with
                   telegram_chat_id := some (toString payload.telegram_id),
                   telegram_username := pickUname payload.telegram_username user.telegram_username }
               else x),
             links := db.links.map (fun l =>
               if l.id == link.id then { l with used := 1 } else l) }) := by
        unfold telegram_confirm
        rw [hfind]
        dsimp only
        rw [hu0, if_neg (by simp), if_neg (by simp [he0]), huser2]
      have hpres : ∀ x : UserRec,
          ((if x.id == user.id then
              { user with
                telegram_chat_id := some (toString payload.telegram_id),
                telegram_username := pickUname payload.telegram_username user.telegram_username }
            else x).id == link.user_id) = (x.id == link.user_id) := by
        intro x
        by_cases hx : (x.id == user.id) = true
        · rw [if_pos hx]
          have hxe : x.id = user.id := by simpa using hx
          rw [hxe]
        · rw [if_neg hx]
      refine ⟨by rw [hupd], ?_, ?_, ?_, ?_⟩
      · rw [hupd]
        unfold findLinkByCode at hfind ⊢
        dsimp only
        rw [find?_code_mark_used_id, hfind]
        simp
      · rw [hupd]
        unfold findUserById at huser2 ⊢
        dsimp only
        rw [find?_map_of_pred _ _ _ hpres, huser2]
        simp
      · intro s hs hsne
        rw [hupd]
        unfold findUserById at huser2 ⊢
        dsimp only
        rw [find?_map_of_pred _ _ _ hpres, huser2]
        simp [pickUname, hs, hsne]
      · intro now2
        rw [hupd]
        unfold telegram_confirm findLinkByCode
        unfold findLinkByCode at hfind
        dsimp only
        rw [find?_code_mark_used_id, hfind]
        simp

/-- C2 witness: a stored unused unexpired code confirms `Ok`, binds chat id
and username, and a second confirmation is rejected as already used. -/
theorem confirmCode_outcomes_witness :
    (telegram_confirm ⟨"c0de", 777, some "bob"⟩ 500
        ⟨[⟨1, "alice", "h", "dark", 0, "UTC", none, none⟩],
         [⟨1, 1, "c0de", .iso 1000, 0⟩], 2, 2⟩).1 = .ok ()
    ∧ (findUserById (telegram_confirm ⟨"c0de", 777, some "bob"⟩ 500
        ⟨[⟨1, "alice", "h", "dark", 0, "UTC", none, none⟩],
         [⟨1, 1, "c0de", .iso 1000, 0⟩], 2, 2⟩).2 1).map UserRec.telegram_chat_id =
      some (some "777")
    ∧ (∀ now2, (telegram_confirm ⟨"c0de", 777, some "bob"⟩ now2
        (telegram_confirm ⟨"c0de", 777, some "bob"⟩ 500
          ⟨[⟨1, "alice", "h", "dark", 0, "UTC", none, none⟩],
           [⟨1, 1, "c0de", .iso 1000, 0⟩], 2, 2⟩).2).1 =
      .error ⟨400, "Code already used"⟩) := by
  have h := (confirmCode_outcomes ⟨"c0de", 777, some "bob"⟩ 500
    ⟨[⟨1, "alice", "h", "dark", 0, "UTC", none, none⟩],
     [⟨1, 1, "c0de", .iso 1000, 0⟩], 2, 2⟩ (by decide)).2
    ⟨1, 1, "c0de", .iso 1000, 0⟩ rfl
  have hs := h.2.2 rfl (by decide)
  exact ⟨hs.1, hs.2.2.1, hs.2.2.2.2⟩

/-- C9: a link whose stored expiry is absent (NULL or empty string) is never
reported expired — the expiry check is skipped entirely — so an unused such
code with an existing owner confirms `Ok` at every point in time. -/
theorem confirm_no_expiry_never_expires (payload : TgConfirmIn) (db : AuthDb) (link : LinkRec)
    (hfind : findLinkByCode db payload.code = some link)
    (habs : link.expires_at = ExpVal.nullv ∨ link.expires_at = ExpVal.emptyStr) :
    (∀ now, (telegram_confirm payload now db).1 ≠ .error ⟨400, "Code expired"⟩)
    ∧ (link.used = 0 → (∃ u ∈ db.users, u.id = link.user_id) →
        ∀ now, (telegram_confirm payload now db).1 = .ok ()) := by
  have hexp : ∀ now, linkExpired link.expires_at now = false := by
    intro now
    rcases habs with h | h <;> rw [h] <;> rfl
  constructor
  · intro now hres
    unfold telegram_confirm at hres
    rw [hfind] at hres
    dsimp only at hres
    by_cases hu : (link.used != 0) = true
    · rw [if_pos hu] at hres
      simp at hres
    · rw [if_neg hu, if_neg (by simp [hexp now])] at hres
      cases hfu : findUserById db link.user_id with
      | none =>
        rw [hfu] at hres
        simp at hres
      | some user =>
        rw [hfu] at hres
        simp at hres
  · intro hu0 hex now
    obtain ⟨u, humem, huid⟩ := hex
    have hsome : (db.users.find? (fun x => x.id == link.user_id)).isSome :=
      List.find?_isSome.mpr ⟨u, humem, by simp [huid]⟩
    obtain ⟨user, huser⟩ := Option.isSome_iff_exists.mp hsome
    have huser2 : findUserById db link.user_id = some user := huser
    unfold telegram_confirm
    rw [hfind]
    dsimp only
    rw [hu0, if_neg (by simp), if_neg (by simp [hexp now]), huser2]

/-- C9 witness: an unused code with NULL expiry confirms `Ok` even a billion
seconds in, and is never reported expired. -/
theorem confirm_no_expiry_never_expires_witness :
    (telegram_confirm ⟨"c0de", 9, none⟩ 1000000000
        ⟨[⟨1, "alice", "h", "dark", 0, "UTC", none, none⟩],
         [⟨1, 1, "c0de", .nullv, 0⟩], 2, 2⟩).1 = .ok ()
    ∧ (telegram_confirm ⟨"c0de", 9, none⟩ 1000000000
        ⟨[⟨1, "alice", "h", "dark", 0, "UTC", none, none⟩],
         [⟨1, 1, "c0de", .nullv, 0⟩], 2, 2⟩).1 ≠ .error ⟨400, "Code expired"⟩ := by
  have h := confirm_no_expiry_never_expires ⟨"c0de", 9, none⟩
    ⟨[⟨1, "alice", "h", "dark", 0, "UTC", none, none⟩],
     [⟨1, 1, "c0de", .nullv, 0⟩], 2, 2⟩ ⟨1, 1, "c0de", .nullv, 0⟩ rfl (Or.inl rfl)
  exact ⟨h.2 rfl (by decide) 1000000000, h.1 1000000000⟩

/-- C10: `confirmCode` never checks whether the supplied Telegram id is
already linked elsewhere: with two users holding valid unused codes, both
confirmations with the same `telegram_id` return `Ok`, both users end up with
that chat id, and a subsequent WebApp login for that id resolves to the
matching user row the store returns first (the first in row order). -/
theorem confirm_ignores_existing_binding
    (u1 u2 : UserRec) (l1 l2 : LinkRec) (nuid nlid : Nat) (tg : Int)
    (tun1 tun2 : Option String) (now1 now2 : Int)
    (hid : u1.id ≠ u2.id) (hlid : l1.id ≠ l2.id) (hcode : l1.code ≠ l2.code)
    (hl1 : l1.user_id = u1.id) (hl2 : l2.user_id = u2.id)
    (hu1 : l1.used = 0) (hu2 : l2.used = 0)
    (he1 : linkExpired l1.expires_at now1 = false)
    (he2 : linkExpired l2.expires_at now2 = false) :
    (telegram_confirm ⟨l1.code, tg, tun1⟩ now1 ⟨[u1, u2], [l1, l2], nuid, nlid⟩).1 = .ok ()
    ∧ (telegram_confirm ⟨l2.code, tg, tun2⟩ now2
        (telegram_confirm ⟨l1.code, tg, tun1⟩ now1 ⟨[u1, u2], [l1, l2], nuid, nlid⟩).2).1 = .ok ()
    ∧ ((telegram_confirm ⟨l2.code, tg, tun2⟩ now2
        (telegram_confirm ⟨l1.code, tg, tun1⟩ now1
          ⟨[u1, u2], [l1, l2], nuid, nlid⟩).2).2.users.map
          (fun u => u.telegram_chat_id)) = [some (toString tg), some (toString tg)]
    ∧ (∀ initData bot rnd now3 fields,
        verify_telegram_webapp_data initData bot = .ok (.obj fields) →
        jsonGet fields "id" = some (.num tg) → tg ≠ 0 →
        (telegram_webapp_login initData bot rnd now3
            (telegram_confirm ⟨l2.code, tg, tun2⟩ now2
              (telegram_confirm ⟨l1.code, tg, tun1⟩ now1
                ⟨[u1, u2], [l1, l2], nuid, nlid⟩).2).2).1 =
          .ok (create_access_token u1.username now3)) := by
  have hbu21 : (u2.id == u1.id) = false := beq_eq_false_iff_ne.mpr (Ne.symm hid)
  have hbu12 : (u1.id == u2.id) = false := beq_eq_false_iff_ne.mpr hid
  have hbl21 : (l2.id == l1.id) = false := beq_eq_false_iff_ne.mpr (Ne.symm hlid)
  have hbc21 : (l2.code == l1.code) = false := beq_eq_false_iff_ne.mpr (Ne.symm hcode)
  have hbc12 : (l1.code == l2.code) = false := beq_eq_false_iff_ne.mpr hcode
  have hc1 : telegram_confirm ⟨l1.code, tg, tun1⟩ now1 ⟨[u1, u2], [l1, l2], nuid, nlid⟩ =
      (.ok (),
       ⟨[{ u1 with
            telegram_chat_id := some (toString tg),
            telegram_username := pickUname tun1 u1.telegram_username }, u2],
        [{ l1 with used := 1 }, l2], nuid, nlid⟩) := by
    unfold telegram_confirm findLinkByCode findUserById
    dsimp only
    rw [List.find?_cons_of_pos _ (by simp)]
    dsimp only
    rw [hu1, if_neg (by simp), if_neg (by simp [he1]),
      List.find?_cons_of_pos _ (by simp [hl1])]
    dsimp only
    simp only [List.map_cons, List.map_nil]
    rw [if_pos (by simp), if_neg (by simp [hbu21]), if_pos (by simp),
      if_neg (by simp [hbl21])]
  rw [hc1]
  have hc2 : telegram_confirm ⟨l2.code, tg, tun2⟩ now2
      (⟨[{ u1 with
            telegram_chat_id := some (toString tg),
            telegram_username := pickUname tun1 u1.telegram_username }, u2],
        [{ l1 with used := 1 }, l2], nuid, nlid⟩ : AuthDb) =
      (.ok (),
       ⟨[{ u1 with
            telegram_chat_id := some (toString tg),
            telegram_username := pickUname tun1 u1.telegram_username },
          { u2 with
            telegram_chat_id := some (toString tg),
            telegram_username := pickUname tun2 u2.telegram_username }],
        [{ l1 with used := 1 }, { l2 with used := 1 }], nuid, nlid⟩) := by
    unfold telegram_confirm findLinkByCode findUserById
    dsimp only
    rw [List.find?_cons_of_neg _ (by simp [hcode]), List.find?_cons_of_pos _ (by simp)]
    dsimp only
    rw [hu2, if_neg (by simp), if_neg (by simp [he2]),
      List.find?_cons_of_neg _ (by simp [hl2, hid]),
      List.find?_cons_of_pos _ (by simp [hl2])]
    dsimp only
    simp only [List.map_cons, List.map_nil]
    rw [if_neg (by simp [hbu12]), if_pos (by simp), if_neg (by simp [hlid]),
      if_pos (by simp)]
  rw [hc2]
  refine ⟨rfl, rfl, by simp, ?_⟩
  intro initData bot rnd now3 fields hver hgetid htg
  unfold telegram_webapp_login
  rw [hver]
  dsimp only
  rw [hgetid]
  dsimp only
  rw [if_neg (by simp [jsonFalsy, htg])]
  unfold findUserByChat
  dsimp only [pyStr]
  rw [List.find?_cons_of_pos _ (by simp)]

/-- C10 witness: users alice and bob each hold a valid unused code; both
codes confirm `Ok` with Telegram id 42, both rows carry chat id "42", and a
signed WebApp login for id 42 logs in as alice, the first matching row. -/
theorem confirm_ignores_existing_binding_witness :
    (telegram_confirm ⟨"aaaa", 42, none⟩ 10
        ⟨[⟨1, "alice", "h1", "dark", 0, "UTC", none, none⟩,
          ⟨2, "bob", "h2", "dark", 0, "UTC", none, none⟩],
         [⟨1, 1, "aaaa", .iso 100, 0⟩, ⟨2, 2, "bbbb", .iso 100, 0⟩], 3, 3⟩).1 = .ok ()
    ∧ (telegram_confirm ⟨"bbbb", 42, none⟩ 10
        (telegram_confirm ⟨"aaaa", 42, none⟩ 10
          ⟨[⟨1, "alice", "h1", "dark", 0, "UTC", none, none⟩,
            ⟨2, "bob", "h2", "dark", 0, "UTC", none, none⟩],
           [⟨1, 1, "aaaa", .iso 100, 0⟩, ⟨2, 2, "bbbb", .iso 100, 0⟩], 3, 3⟩).2).1 = .ok ()
    ∧ (telegram_webapp_login
        ("user=%7B%22id%22%3A42%7D&hash=4311affca9eae1f1f5b41a4b5d05174661c6331457e99c118d97978712253060")
        tokGold "rnd" 20
        (telegram_confirm ⟨"bbbb", 42, none⟩ 10
          (telegram_confirm ⟨"aaaa", 42, none⟩ 10
            ⟨[⟨1, "alice", "h1", "dark", 0, "UTC", none, none⟩,
              ⟨2, "bob", "h2", "dark", 0, "UTC", none, none⟩],
             [⟨1, 1, "aaaa", .iso 100, 0⟩, ⟨2, 2, "bbbb", .iso 100, 0⟩], 3, 3⟩).2).2).1 =
      .ok (create_access_token "alice" 20) := by
  have h := confirm_ignores_existing_binding
    ⟨1, "alice", "h1", "dark", 0, "UTC", none, none⟩
    ⟨2, "bob", "h2", "dark", 0, "UTC", none, none⟩
    ⟨1, 1, "aaaa", .iso 100, 0⟩ ⟨2, 2, "bbbb", .iso 100, 0⟩ 3 3 42 none none 10 10
    (by decide) (by decide) (by decide) rfl rfl rfl rfl (by decide) (by decide)
  exact ⟨h.1, h.2.1,
    h.2.2.2
      ("user=%7B%22id%22%3A42%7D&hash=4311affca9eae1f1f5b41a4b5d05174661c6331457e99c118d97978712253060")
      tokGold "rnd" 20 [("id", .num 42)] rfl rfl (by decide)⟩

theorem jwt_decode_signed (s : Option String) (e now : Int) :
    jwt_decode ⟨s, e, jwtSign s e⟩ now =
      if e < now then .error .expired else .ok (s, e) := by
  have h1 : jwt_decode ⟨s, e, jwtSign s e⟩ now =
      if jwtSign s e ≠ jwtSign s e then .error .invalidSignature
      else if e < now then .error .expired else .ok (s, e) := rfl
  rw [h1, if_neg (not_not_intro rfl)]

theorem read_users_me_error (t : Jwt) (now : Int) (e : JwtErr)
    (h : jwt_decode t now = .error e) :
    read_users_me t now = .error ⟨401, "Invalid token"⟩ := by
  unfold read_users_me
  rw [h]

theorem read_users_me_ok_some (t : Jwt) (now : Int) (s : String) (e : Int)
    (h : jwt_decode t now = .ok (some s, e)) :
    read_users_me t now = if s = "" then .error ⟨401, "Invalid token"⟩ else .ok s := by
  unfold read_users_me
  rw [h]

/-- C4 (amended): for every non-empty subject, a token issued at `tIssue`
verifies to the same subject at every time strictly before `tIssue` + 60
minutes, and at every time strictly after that instant the decoder reports
`Expired`, which the route surfaces as a 401. -/
theorem token_roundtrip_ttl (sub : String) (hs : sub ≠ "") (tIssue tVerify : Int) :
    (tVerify < tIssue + 60 * 60 →
      read_users_me (create_access_token sub tIssue) tVerify = .ok sub)
    ∧ (tIssue + 60 * 60 < tVerify →
        jwt_decode (create_access_token sub tIssue) tVerify = .error .expired
        ∧ read_users_me (create_access_token sub tIssue) tVerify =
            .error ⟨401, "Invalid token"⟩) := by
  have hc : create_access_token sub tIssue =
      ⟨some sub, tIssue + 60 * 60, jwtSign (some sub) (tIssue + 60 * 60)⟩ := rfl
  constructor
  · intro hlt
    have hd : jwt_decode (create_access_token sub tIssue) tVerify =
        .ok (some sub, tIssue + 60 * 60) := by
      rw [hc, jwt_decode_signed, if_neg (by omega)]
    rw [read_users_me_ok_some _ _ _ _ hd, if_neg hs]
  · intro hgt
    have hd : jwt_decode (create_access_token sub tIssue) tVerify = .error .expired := by
      rw [hc, jwt_decode_signed, if_pos hgt]
    exact ⟨hd, read_users_me_error _ _ _ hd⟩

/-- C4 witness: a token for "alice" issued at t=1000 reads back "alice" at
t=1500 and is rejected as an invalid (expired) token at t=5000. -/
theorem token_roundtrip_ttl_witness :
    read_users_me (create_access_token "alice" 1000) 1500 = .ok "alice"
    ∧ jwt_decode (create_access_token "alice" 1000) 5000 = .error .expired
    ∧ read_users_me (create_access_token "alice" 1000) 5000 =
        .error ⟨401, "Invalid token"⟩ := by
  have h1 := (token_roundtrip_ttl "alice" (by decide) 1000 1500).1 (by decide)
  have h2 := (token_roundtrip_ttl "alice" (by decide) 1000 5000).2 (by decide)
  exact ⟨h1, h2.1, h2.2⟩

/-- C4 counterexample: the claim quantifies over every subject string, but a
token whose subject is the empty string is rejected with 401 by `/me` even
inside the TTL window (`payload.get("sub")` is falsy), not answered with the
subject. -/
theorem token_roundtrip_empty_subject_cex :
    (1 : Int) < 0 + 60 * 60
    ∧ read_users_me (create_access_token "" 0) 1 = .error ⟨401, "Invalid token"⟩
    ∧ read_users_me (create_access_token "" 0) 1 ≠ .ok "" := by
  have h3 : read_users_me (create_access_token "" 0) 1 = .error ⟨401, "Invalid token"⟩ := rfl
  refine ⟨by decide, h3, ?_⟩
  rw [h3]
  exact fun hc => Except.noConfusion hc

/-- Every character contributes at least one UTF-8 byte. -/
theorem length_le_utf8Len (s : String) : s.length ≤ utf8Len s := by
  unfold utf8Len utf8
  show s.data.length ≤ _
  induction s.data with
  | nil => simp
  | cons c cs ih =>
    rw [List.map_cons, List.flatten_cons, List.length_cons, List.length_append]
    have hc : 1 ≤ (utf8Char c).length := by
      unfold utf8Char
      dsimp only
      split
      · simp
      · split
        · simp
        · split
          · simp
          · simp
    omega

/-- C6 (amended): for credentials that are unchanged by trimming (no leading
or trailing whitespace), non-empty, with username ≤ 150 characters and
password ≤ 72 UTF-8 bytes, and a username not already registered, `register`
succeeds and a subsequent `login` with the same pair yields a token whose
subject claim is the username. -/
theorem register_then_login (username password : String) (now : Int) (db : AuthDb)
    (hu : pyStrip username = username) (hp : pyStrip password = password)
    (hune : username ≠ "") (hpne : password ≠ "")
    (hul : username.length ≤ 150) (hpl : utf8Len password ≤ 72)
    (hfresh : findUserByName db username = none) :
    (register username password db).1 = .ok ()
    ∧ login username password now (register username password db).2 =
        .ok (create_access_token username now)
    ∧ (create_access_token username now).sub = some username := by
  have hplc : password.length ≤ 72 := le_trans (length_le_utf8Len password) hpl
  have hreg : register username password db =
      (.ok (), { db with
        users := db.users ++ [⟨db.next_user_id, username, get_password_hash password,
          "dark", 0, "Europe/Amsterdam", none, none⟩],
        next_user_id := db.next_user_id + 1 }) := by
    unfold register
    rw [hu, hp, if_neg hune, if_neg hpne, if_neg (by omega), if_neg (by omega), hfresh]
  refine ⟨by rw [hreg], ?_, rfl⟩
  rw [hreg]
  unfold login findUserByName
  dsimp only
  unfold findUserByName at hfresh
  rw [List.find?_append, hfresh]
  dsimp only [Option.none_or]
  rw [List.find?_cons_of_pos _ (by simp)]
  dsimp only
  rw [if_pos (by unfold verify_password get_password_hash; simp)]

/-- C6 witness: register then login for ("alice", "p@ss1234") from the empty
store yields a token with subject "alice". -/
theorem register_then_login_witness :
    (register "alice" "p@ss1234" emptyDb).1 = .ok ()
    ∧ login "alice" "p@ss1234" 0 (register "alice" "p@ss1234" emptyDb).2 =
        .ok (create_access_token "alice" 0)
    ∧ (create_access_token "alice" 0).sub = some "alice" := by
  exact register_then_login "alice" "p@ss1234" 0 emptyDb rfl rfl (by decide) (by decide)
    (by decide) (by decide) rfl

/-- C6 counterexample: the username " a " is ≤150 characters and non-empty
after trimming and the password "p" is 1 byte, so the claim as stated covers
the pair; `register` stores the trimmed username "a", and `login` with the
same raw pair then fails `InvalidCredentials` instead of succeeding. -/
theorem register_then_login_whitespace_cex :
    (" a ").length ≤ 150
    ∧ pyStrip " a " ≠ ""
    ∧ 1 ≤ utf8Len "p" ∧ utf8Len "p" ≤ 72
    ∧ (register " a " "p" emptyDb).1 = .ok ()
    ∧ login " a " "p" 0 (register " a " "p" emptyDb).2 =
        .error ⟨401, "Invalid credentials"⟩ :=
  ⟨by decide, by decide, by decide, by decide, rfl, rfl⟩

/-- C7 (amended): `register` trims both inputs and fails with a 400
validation error iff the trimmed username is empty, the trimmed password is
empty, the trimmed username exceeds 150 characters, or the trimmed password
exceeds 72 characters — Python `len`, counting characters, not the claimed
72 bytes; with valid inputs it fails `DuplicateUsername` (also transported
as HTTP 400, distinguished by its message) iff a user with the trimmed
username exists, and otherwise stores the user with the hash of the trimmed
password. -/
theorem register_validation (username password : String) (db : AuthDb) :
    (((register username password db).1 = .error ⟨400, "username required"⟩ ∨
      (register username password db).1 = .error ⟨400, "password required"⟩ ∨
      (register username password db).1 =
        .error ⟨400, "username too long (max 150 characters)"⟩ ∨
      (register username password db).1 =
        .error ⟨400, "password too long (max 72 characters)"⟩)
      ↔ (pyStrip username = "" ∨ pyStrip password = "" ∨
         150 < (pyStrip username).length ∨ 72 < (pyStrip password).length))
    ∧ (pyStrip username ≠ "" → pyStrip password ≠ "" →
        (pyStrip username).length ≤ 150 → (pyStrip password).length ≤ 72 →
        (∀ u, findUserByName db (pyStrip username) = some u →
          (register username password db).1 = .error ⟨400, "Username already registered"⟩
          ∧ (register username password db).2 = db)
        ∧ (findUserByName db (pyStrip username) = none →
            (register username password db).1 = .ok ()
            ∧ (register username password db).2.users = db.users ++
              [⟨db.next_user_id, pyStrip username, get_password_hash (pyStrip password),
                "dark", 0, "Europe/Amsterdam", none, none⟩])) := by
  by_cases h1 : pyStrip username = ""
  · have hr : register username password db = (.error ⟨400, "username required"⟩, db) := by
      unfold register
      rw [if_pos h1]
    rw [hr]
    exact ⟨⟨fun _ => Or.inl h1, fun _ => Or.inl rfl⟩, fun hne => absurd h1 hne⟩
  · by_cases h2 : pyStrip password = ""
    · have hr : register username password db = (.error ⟨400, "password required"⟩, db) := by
        unfold register
        rw [if_neg h1, if_pos h2]
      rw [hr]
      exact ⟨⟨fun _ => Or.inr (Or.inl h2), fun _ => Or.inr (Or.inl rfl)⟩,
        fun _ hne => absurd h2 hne⟩
    · by_cases h3 : 150 < (pyStrip username).length
      · have hr : register username password db =
            (.error ⟨400, "username too long (max 150 characters)"⟩, db) := by
          unfold register
          rw [if_neg h1, if_neg h2]
          dsimp only
          rw [if_pos h3]
        rw [hr]
        refine ⟨⟨fun _ => Or.inr (Or.inr (Or.inl h3)),
          fun _ => Or.inr (Or.inr (Or.inl rfl))⟩, ?_⟩
        intro _ _ hle _
        omega
      · by_cases h4 : 72 < (pyStrip password).length
        · have hr : register username password db =
              (.error ⟨400, "password too long (max 72 characters)"⟩, db) := by
            unfold register
            rw [if_neg h1, if_neg h2]
            dsimp only
            rw [if_neg h3, if_pos h4]
          rw [hr]
          refine ⟨⟨fun _ => Or.inr (Or.inr (Or.inr h4)),
            fun _ => Or.inr (Or.inr (Or.inr rfl))⟩, ?_⟩
          intro _ _ _ hle
          omega
        · cases hf : findUserByName db (pyStrip username) with
          | some u =>
            have hr : register username password db =
                (.error ⟨400, "Username already registered"⟩, db) := by
              unfold register
              rw [if_neg h1, if_neg h2]
              dsimp only
              rw [if_neg h3, if_neg h4, hf]
            rw [hr]
            constructor
            · constructor
              · intro hor
                exfalso
                rcases hor with h | h | h | h <;> simp at h
              · intro hor
                exfalso
                rcases hor with h | h | h | h
                · exact h1 h
                · exact h2 h
                · exact h3 h
                · exact h4 h
            · intro _ _ _ _
              exact ⟨fun u2 hu2 => ⟨rfl, rfl⟩, fun hnone => Option.noConfusion hnone⟩
          | none =>
            have hr : register username password db =
                (.ok (), { db with
                  users := db.users ++ [⟨db.next_user_id, pyStrip username,
                    get_password_hash (pyStrip password), "dark", 0,
                    "Europe/Amsterdam", none, none⟩],
                  next_user_id := db.next_user_id + 1 }) := by
              unfold register
              rw [if_neg h1, if_neg h2]
              dsimp only
              rw [if_neg h3, if_neg h4, hf]
            rw [hr]
            constructor
            · constructor
              · intro hor
                exfalso
                rcases hor with h | h | h | h <;> simp at h
              · intro hor
                exfalso
                rcases hor with h | h | h | h
                · exact h1 h
                · exact h2 h
                · exact h3 h
                · exact h4 h
            · intro _ _ _ _
              exact ⟨fun u2 hu2 => Option.noConfusion hu2, fun _ => ⟨rfl, rfl⟩⟩

/-- C7 witness: registering ("alice", "pw") in the empty store succeeds and
stores the hashed password; registering the same username again fails as a
duplicate. -/
theorem register_validation_witness :
    (register "alice" "pw" emptyDb).1 = .ok ()
    ∧ (register "alice" "pw" emptyDb).2.users =
        emptyDb.users ++ [⟨1, "alice", get_password_hash "pw", "dark", 0,
          "Europe/Amsterdam", none, none⟩]
    ∧ (register "alice" "pw" (register "alice" "pw" emptyDb).2).1 =
        .error ⟨400, "Username already registered"⟩ := by
  have h1 := ((register_validation "alice" "pw" emptyDb).2 (by decide) (by decide)
    (by decide) (by decide)).2 rfl
  have h2 := (((register_validation "alice" "pw" (register "alice" "pw" emptyDb).2).2
    (by decide) (by decide) (by decide) (by decide)).1
    ⟨1, "alice", "$argon2$pw", "dark", 0, "Europe/Amsterdam", none, none⟩ rfl).1
  exact ⟨h1.1, h1.2, h2⟩

/-- C7 counterexample: a password of 72 two-byte characters is 144 UTF-8
bytes — beyond the claimed 72-byte bound, so the claim requires a
ValidationError — yet `register` accepts it, because the code checks
`len(password) > 72`, which counts characters. -/
theorem register_byte_bound_cex :
    utf8Len (String.mk (List.replicate 72 'ё')) = 144
    ∧ 72 < utf8Len (String.mk (List.replicate 72 'ё'))
    ∧ (register "alice" (String.mk (List.replicate 72 'ё')) emptyDb).1 = .ok () :=
  ⟨by decide, by decide, rfl⟩

/-! ## The data-check string as the specification words it (for comparison
with the verifier): the decoded key=value pairs of the payload minus the
hash field, sorted by key, rendered and newline-joined. -/

/-- The received hash per the specification: the (first) value of the
payload's hash field. -/
def specHash (initData : String) : Option String :=
  ((parseQsl initData).find? (fun p => p.1 == "hash")).map (fun p => p.2)

/-- The remaining decoded pairs the specification's data-check string is
built from. -/
def specDataCheckPairs (initData : String) : List (String × String) :=
  (parseQsl initData).filter (fun p => p.1 != "hash")

/-- The specification's data-check string. -/
def specDataCheck (initData : String) : String :=
  renderPairs (sortPairs (specDataCheckPairs initData))

/-- True unless the verifier rejected the payload with `InvalidSignature`. -/
def passesSignature (r : Except VerifyErr Json) : Bool :=
  match r with
  | .error (.http e) => !(e.status == 401 && e.detail == "Invalid signature")
  | .error .typeError => true
  | .ok _ => true

theorem addPair_of_not_mem (acc : List (String × List String)) (k : String) (v : String)
    (hk : ∀ e ∈ acc, e.1 ≠ k) : addPair acc k v = acc ++ [(k, [v])] := by
  induction acc with
  | nil => rfl
  | cons e es ih =>
    unfold addPair
    rw [if_neg (by simp [hk e (List.mem_cons_self e es)])]
    rw [List.cons_append]
    have : addPair es k v = es ++ [(k, [v])] :=
      ih (fun x hx => hk x (List.mem_cons_of_mem e hx))
    rw [this]

theorem foldl_addPair_distinct (ps : List (String × String)) :
    ∀ acc : List (String × List String),
    (∀ e ∈ acc, ∀ p ∈ ps, e.1 ≠ p.1) →
    ps.Pairwise (fun p q => p.1 ≠ q.1) →
    ps.foldl (fun acc p => addPair acc p.1 p.2) acc =
      acc ++ ps.map (fun p => (p.1, [p.2])) := by
  induction ps with
  | nil =>
    intro acc _ _
    simp
  | cons p ps ih =>
    intro acc hacc hpw
    rw [List.foldl_cons]
    rw [addPair_of_not_mem acc p.1 p.2 (fun e he => hacc e he p (List.mem_cons_self p ps))]
    have hpw2 := (List.pairwise_cons.mp hpw)
    rw [ih (acc ++ [(p.1, [p.2])]) ?hnew hpw2.2]
    · simp
    · intro e he q hq
      rcases List.mem_append.mp he with h | h
      · exact hacc e h q (List.mem_cons_of_mem p hq)
      · have : e = (p.1, [p.2]) := by simpa using h
        rw [this]
        exact hpw2.1 q hq

theorem groupMulti_of_distinct (ps : List (String × String))
    (h : ps.Pairwise (fun p q => p.1 ≠ q.1)) :
    groupMulti ps = ps.map (fun p => (p.1, [p.2])) := by
  unfold groupMulti
  rw [foldl_addPair_distinct ps [] (by intro e he; exact absurd he (List.not_mem_nil e)) h]
  rfl

theorem getFirst_singleton (ps : List (String × String)) (k : String) :
    getFirst (ps.map (fun p => (p.1, [p.2]))) k =
      ((ps.find? (fun p => p.1 == k)).map (fun p => p.2)) := by
  induction ps with
  | nil => rfl
  | cons p ps ih =>
    unfold getFirst getMulti
    rw [List.map_cons, List.find?_cons, List.find?_cons]
    cases hc : (p.1 == k) with
    | true => rfl
    | false => exact ih

theorem dataPairs_singleton (ps : List (String × String)) :
    (ps.map (fun p => (p.1, [p.2]))).filterMap (fun g =>
        if g.1 != "hash" && !g.2.isEmpty then some (g.1, g.2.headD "") else none) =
      ps.filter (fun p => p.1 != "hash") := by
  induction ps with
  | nil => rfl
  | cons p ps ih =>
    rw [List.map_cons, List.filterMap_cons, List.filter_cons]
    cases hc : (p.1 != "hash") with
    | true =>
      rw [if_pos (by simp [hc])]
      dsimp only
      rw [if_pos rfl, ih]
      rfl
    | false =>
      rw [if_neg (by simp [hc])]
      dsimp only
      rw [if_neg (by simp [hc])]
      exact ih

theorem length_insertPair (x : String × String) (l : List (String × String)) :
    (insertPair x l).length = l.length + 1 := by
  induction l with
  | nil => rfl
  | cons y ys ih =>
    unfold insertPair
    by_cases hc : (pairLeB x y) = true
    · rw [if_pos hc]
      rfl
    · rw [if_neg hc, List.length_cons, List.length_cons, ih]

theorem length_sortPairs (l : List (String × String)) :
    (sortPairs l).length = l.length := by
  induction l with
  | nil => rfl
  | cons x xs ih =>
    unfold sortPairs
    rw [length_insertPair, ih]
    rfl

theorem renderPairs_cons_ne_empty (p : String × String) (ps : List (String × String)) :
    renderPairs (p :: ps) ≠ "" := by
  cases ps with
  | nil =>
    intro hcontra
    have hlen := congrArg String.length hcontra
    have heq : (renderPairs [p]).length = (p.1 ++ "=" ++ p.2).length := rfl
    rw [heq, String.length_append, String.length_append] at hlen
    have h1 : ("=" : String).length = 1 := rfl
    have h0 : ("" : String).length = 0 := rfl
    omega
  | cons q qs =>
    intro hcontra
    have hlen := congrArg String.length hcontra
    have heq : (renderPairs (p :: q :: qs)).length =
        ((p.1 ++ "=" ++ p.2) ++ "\n" ++
          joinNl ((q.1 ++ "=" ++ q.2) :: qs.map (fun r => r.1 ++ "=" ++ r.2))).length := rfl
    rw [heq, String.length_append, String.length_append] at hlen
    have h2 : ("\n" : String).length = 1 := rfl
    have h0 : ("" : String).length = 0 := rfl
    omega

theorem hexDigit_ascii (n : Nat) (h : n < 16) : (hexDigit n).toNat < 128 := by
  interval_cases n <;> decide

theorem wordBytes_lt (x : Nat) : ∀ b ∈ wordBytes x, b < 256 := by
  intro b hb
  unfold wordBytes at hb
  simp only [List.mem_cons, List.not_mem_nil, or_false] at hb
  rcases hb with rfl | rfl | rfl | rfl <;> exact Nat.mod_lt _ (by decide)

theorem sha256_byte_lt (msg : List Nat) : ∀ b ∈ sha256 msg, b < 256 := by
  intro b hb
  unfold sha256 at hb
  dsimp only at hb
  simp only [List.mem_append] at hb
  rcases hb with ((((((h | h) | h) | h) | h) | h) | h) | h <;> exact wordBytes_lt _ b h

theorem hmacSha256_byte_lt (key msg : List Nat) : ∀ b ∈ hmacSha256 key msg, b < 256 := by
  intro b hb
  unfold hmacSha256 at hb
  dsimp only at hb
  exact sha256_byte_lt _ b hb

/-- A hex digest rendered by `bytesToHex` from genuine bytes is ASCII. -/
theorem isAsciiStr_bytesToHex (bs : List Nat) (hb : ∀ b ∈ bs, b < 256) :
    isAsciiStr (bytesToHex bs) = true := by
  unfold isAsciiStr bytesToHex
  rw [List.all_eq_true]
  intro c hc
  dsimp only at hc
  obtain ⟨l2, hl2, hcl⟩ := List.mem_flatten.mp hc
  obtain ⟨b, hbmem, rfl⟩ := List.mem_map.mp hl2
  have hb2 := hb b hbmem
  simp only [List.mem_cons, List.not_mem_nil, or_false] at hcl
  rcases hcl with rfl | rfl
  · simpa using hexDigit_ascii (b / 16) (by omega)
  · simpa using hexDigit_ascii (b % 16) (by omega)

/-- C3 (amended): for a configured (non-empty) bot token and an initData
payload whose decoded pairs have pairwise-distinct keys, contain a hash
field, and contain at least one non-hash pair: when the received hash is an
ASCII string (as every genuine hex digest is), the verifier passes the
signature check iff the received hash equals the lowercase-hex HMAC-SHA256 —
keyed by the raw SHA-256 digest of the bot token — of the data-check string
(remaining decoded pairs sorted by key, newline-joined, no trailing
newline), and a mismatch fails with `InvalidSignature`; when the received
hash contains a non-ASCII character, `hmac.compare_digest` instead raises a
`TypeError` that escapes the verifier (the login route surfaces it as a
generic 500, not as `InvalidSignature`). Constant-time execution of the
comparison is a timing property with no functional content. -/
theorem verifier_signature_iff (initData bot h : String)
    (hbot : bot ≠ "")
    (hhash : specHash initData = some h)
    (hdk : (parseQsl initData).Pairwise (fun p q => p.1 ≠ q.1))
    (hnh : specDataCheckPairs initData ≠ []) :
    (isAsciiStr h = true →
      ((passesSignature (verify_telegram_webapp_data initData bot) = true ↔
        h = bytesToHex (hmacSha256 (sha256 (utf8 bot)) (utf8 (specDataCheck initData))))
      ∧ (h ≠ bytesToHex (hmacSha256 (sha256 (utf8 bot)) (utf8 (specDataCheck initData))) →
          verify_telegram_webapp_data initData bot =
            .error (.http ⟨401, "Invalid signature"⟩))))
    ∧ (isAsciiStr h = false →
        verify_telegram_webapp_data initData bot = .error .typeError) := by
  have hne : initData ≠ "" := by
    intro he
    rw [he] at hhash
    exact Option.noConfusion hhash
  unfold specDataCheck specDataCheckPairs at *
  unfold verify_telegram_webapp_data
  rw [if_neg hbot, if_neg hne]
  dsimp only
  rw [groupMulti_of_distinct _ hdk, getFirst_singleton]
  unfold specHash at hhash
  rw [hhash]
  dsimp only
  rw [dataPairs_singleton]
  have hds : renderPairs (sortPairs ((parseQsl initData).filter (fun p => p.1 != "hash"))) ≠
      "" := by
    cases hsp : sortPairs ((parseQsl initData).filter (fun p => p.1 != "hash")) with
    | nil =>
      exfalso
      have hl := length_sortPairs ((parseQsl initData).filter (fun p => p.1 != "hash"))
      rw [hsp] at hl
      cases hflt : (parseQsl initData).filter (fun p => p.1 != "hash") with
      | nil => exact hnh hflt
      | cons q qs =>
        rw [hflt] at hl
        simp at hl
    | cons q qs =>
      exact renderPairs_cons_ne_empty q qs
  rw [if_neg hds]
  constructor
  · intro hA
    have hcA : isAsciiStr (bytesToHex (hmacSha256 (sha256 (utf8 bot))
        (utf8 (renderPairs (sortPairs ((parseQsl initData).filter
          (fun p => p.1 != "hash"))))))) = true :=
      isAsciiStr_bytesToHex _ (hmacSha256_byte_lt _ _)
    have hcd : compare_digest h (bytesToHex (hmacSha256 (sha256 (utf8 bot))
        (utf8 (renderPairs (sortPairs ((parseQsl initData).filter
          (fun p => p.1 != "hash"))))))) =
        .ok (h == bytesToHex (hmacSha256 (sha256 (utf8 bot))
          (utf8 (renderPairs (sortPairs ((parseQsl initData).filter
            (fun p => p.1 != "hash"))))))) := by
      unfold compare_digest
      rw [if_pos (by rw [hA, hcA]; rfl)]
    rw [hcd]
    dsimp only
    by_cases hbe :
        (h == bytesToHex (hmacSha256 (sha256 (utf8 bot))
          (utf8 (renderPairs (sortPairs ((parseQsl initData).filter
            (fun p => p.1 != "hash"))))))) = true
    · have heq : h = bytesToHex (hmacSha256 (sha256 (utf8 bot))
          (utf8 (renderPairs (sortPairs ((parseQsl initData).filter
            (fun p => p.1 != "hash")))))) := eq_of_beq hbe
      rw [if_neg (by simp [hbe])]
      refine ⟨?_, fun hneq => absurd heq hneq⟩
      rw [getFirst_singleton]
      cases hu : (parseQsl initData).find? (fun p => p.1 == "user") with
      | none =>
        exact ⟨fun _ => heq, fun _ => rfl⟩
      | some ud =>
        rw [Option.map_some']
        dsimp only
        cases hj : jsonParse ud.2 with
        | none =>
          exact ⟨fun _ => heq, fun _ => rfl⟩
        | some u =>
          exact ⟨fun _ => heq, fun _ => rfl⟩
    · have hneq : h ≠ bytesToHex (hmacSha256 (sha256 (utf8 bot))
          (utf8 (renderPairs (sortPairs ((parseQsl initData).filter
            (fun p => p.1 != "hash")))))) := by
        intro he
        rw [he] at hbe
        simp at hbe
      rw [if_pos (by simp [hbe])]
      constructor
      · constructor
        · intro hp
          exfalso
          unfold passesSignature at hp
          simp at hp
        · intro heq
          exact absurd heq hneq
      · intro _
        rfl
  · intro hA
    have hcd : compare_digest h (bytesToHex (hmacSha256 (sha256 (utf8 bot))
        (utf8 (renderPairs (sortPairs ((parseQsl initData).filter
          (fun p => p.1 != "hash"))))))) = .error () := by
      unfold compare_digest
      rw [if_neg (by rw [hA]; simp)]
    rw [hcd]

/-- C3 witness: for the golden payload — whose received hash is ASCII hex —
the verifier passes the signature check, and its received hash equals the
HMAC of the specification's data-check string. -/
theorem verifier_signature_iff_witness :
    passesSignature (verify_telegram_webapp_data
      ("user=%7B%22id%22%3A7%7D&b=&hash=a4a39def80d431bebebe3c2a58810678269458e3c42f271068649583b081300c")
      tokGold) = true := by
  have h := ((verifier_signature_iff
    ("user=%7B%22id%22%3A7%7D&b=&hash=a4a39def80d431bebebe3c2a58810678269458e3c42f271068649583b081300c")
    tokGold "a4a39def80d431bebebe3c2a58810678269458e3c42f271068649583b081300c"
    (by decide) rfl (by decide) (by decide)).1 (by decide)).1
  exact h.mpr (by decide)

/-- C3 counterexample: with a duplicated key the verifier's data-check string
keeps only the first value of the key ("a=1"), while the claim's data-check
string lists all remaining decoded pairs ("a=1\na=2"); a payload signed over
"a=1" therefore passes the verifier's signature check even though its hash
differs from the claim's digest, refuting the claimed equivalence. -/
theorem verifier_datacheck_cex :
    passesSignature (verify_telegram_webapp_data
      ("a=1&a=2&hash=0733d44e4872b022e11a472530604830347f6961def98f8fd8eda6214eece480")
      tokGold) = true
    ∧ specHash ("a=1&a=2&hash=0733d44e4872b022e11a472530604830347f6961def98f8fd8eda6214eece480") =
        some "0733d44e4872b022e11a472530604830347f6961def98f8fd8eda6214eece480"
    ∧ specDataCheck
        ("a=1&a=2&hash=0733d44e4872b022e11a472530604830347f6961def98f8fd8eda6214eece480") =
        "a=1\na=2"
    ∧ "0733d44e4872b022e11a472530604830347f6961def98f8fd8eda6214eece480" ≠
        bytesToHex (hmacSha256 (sha256 (utf8 tokGold)) (utf8 "a=1\na=2")) := by
  exact ⟨by decide, by decide, by decide, by decide⟩

/-! ## Single-character changes to a verified payload -/

/-- Number of positions at which two equal-length strings differ. -/
def charDiffCount (s t : String) : Nat :=
  (s.data.zip t.data).countP (fun p => p.1 != p.2)

/-- A golden payload accepted by the verifier: its hash is the HMAC-SHA256 of
the data-check string built from its single non-blank pair. -/
def initGoldB : String :=
  "user=%7B%22id%22%3A7%7D&b=&hash=a4a39def80d431bebebe3c2a58810678269458e3c42f271068649583b081300c"

/-- `initGoldB` with the single character 'b' changed to 'c'. -/
def initGoldC : String :=
  "user=%7B%22id%22%3A7%7D&c=&hash=a4a39def80d431bebebe3c2a58810678269458e3c42f271068649583b081300c"

/-- `initGoldB` with the single data character '7' changed to '8'. -/
def initGold8 : String :=
  "user=%7B%22id%22%3A8%7D&b=&hash=a4a39def80d431bebebe3c2a58810678269458e3c42f271068649583b081300c"

/-- C8 counterexample: the claim quantifies over every single-character
change, but renaming the blank-valued key `b` to `c` — one character — leaves
the decoded data-check string unchanged (blank values are dropped by the
query parser), so the altered payload is still fully accepted rather than
rejected with `InvalidSignature`. -/
theorem verifier_one_char_change_cex :
    verify_telegram_webapp_data initGoldB tokGold = .ok (.obj [("id", .num 7)])
    ∧ initGoldC.length = initGoldB.length
    ∧ charDiffCount initGoldB initGoldC = 1
    ∧ verify_telegram_webapp_data initGoldC tokGold = .ok (.obj [("id", .num 7)])
    ∧ verify_telegram_webapp_data initGoldC tokGold ≠
        .error (.http ⟨401, "Invalid signature"⟩) := by
  have h4 : verify_telegram_webapp_data initGoldC tokGold = .ok (.obj [("id", .num 7)]) := rfl
  refine ⟨rfl, by decide, by decide, h4, ?_⟩
  rw [h4]
  exact fun hc => Except.noConfusion hc

/-- C8 (amended): a single-character change that alters the decoded
data-check string changes the computed HMAC digest away from the received
hash and makes verification fail with `InvalidSignature` — here flipping the
golden payload's data digit '7' to '8' — but a change that leaves the decoded
data-check string intact (such as renaming a blank-valued key) is still
accepted, so the original universal claim holds only for changes the decoded
pair list can see. -/
theorem verifier_one_char_change_golden :
    verify_telegram_webapp_data initGoldB tokGold = .ok (.obj [("id", .num 7)])
    ∧ initGold8.length = initGoldB.length
    ∧ charDiffCount initGoldB initGold8 = 1
    ∧ bytesToHex (hmacSha256 (sha256 (utf8 tokGold)) (utf8 "user=\x7b\"id\":8\x7d")) ≠
        bytesToHex (hmacSha256 (sha256 (utf8 tokGold)) (utf8 "user=\x7b\"id\":7\x7d"))
    ∧ verify_telegram_webapp_data initGold8 tokGold =
        .error (.http ⟨401, "Invalid signature"⟩) := by
  exact ⟨rfl, by decide, by decide, by decide, rfl⟩

/-- C5 (amended): a validly signed WebApp login for a NON-ZERO Telegram id
never seen before provisions exactly one user named `tg_<id>` carrying the
hash of the generated random password, and returns a token for it; every
subsequent validly signed login resolving to the same id returns a token for
the same username and leaves the store unchanged. (A username collision with
a pre-existing `tg_<id>` account would violate the unique constraint, hence
the freshness hypotheses; id 0 is rejected — see the counterexample.) -/
theorem webapp_login_provisions (initData bot rnd : String) (now : Int) (db : AuthDb)
    (fields : List (String × Json)) (idv : Json)
    (hver : verify_telegram_webapp_data initData bot = .ok (.obj fields))
    (hid : jsonGet fields "id" = some idv)
    (hfalsy : jsonFalsy idv = false)
    (hchat : findUserByChat db (pyStr idv) = none)
    (hname : findUserByName db ("tg_" ++ pyStr idv) = none) :
    (telegram_webapp_login initData bot rnd now db).1 =
      .ok (create_access_token ("tg_" ++ pyStr idv) now)
    ∧ (telegram_webapp_login initData bot rnd now db).2 =
      { db with
        users := db.users ++ [⟨db.next_user_id, "tg_" ++ pyStr idv, get_password_hash rnd,
          "dark", 0, "Europe/Amsterdam", some (pyStr idv), jsonUsernameOpt fields⟩],
        next_user_id := db.next_user_id + 1 }
    ∧ (∀ initData2 bot2 rnd2 now2 fields2 idv2,
        verify_telegram_webapp_data initData2 bot2 = .ok (.obj fields2) →
        jsonGet fields2 "id" = some idv2 →
        jsonFalsy idv2 = false →
        pyStr idv2 = pyStr idv →
        (telegram_webapp_login initData2 bot2 rnd2 now2
            (telegram_webapp_login initData bot rnd now db).2).1 =
          .ok (create_access_token ("tg_" ++ pyStr idv) now2)
        ∧ (telegram_webapp_login initData2 bot2 rnd2 now2
            (telegram_webapp_login initData bot rnd now db).2).2 =
          (telegram_webapp_login initData bot rnd now db).2) := by
  have hupd : telegram_webapp_login initData bot rnd now db =
      (.ok (create_access_token ("tg_" ++ pyStr idv) now),
       { db with
         users := db.users ++ [⟨db.next_user_id, "tg_" ++ pyStr idv, get_password_hash rnd,
           "dark", 0, "Europe/Amsterdam", some (pyStr idv), jsonUsernameOpt fields⟩],
         next_user_id := db.next_user_id + 1 }) := by
    unfold telegram_webapp_login
    rw [hver]
    dsimp only
    rw [hid]
    dsimp only
    rw [if_neg (by simp [hfalsy]), hchat]
    dsimp only
    rw [hname, if_neg (by simp)]
  refine ⟨by rw [hupd], by rw [hupd], ?_⟩
  intro initData2 bot2 rnd2 now2 fields2 idv2 hver2 hid2 hfalsy2 hsame
  rw [hupd]
  unfold telegram_webapp_login
  rw [hver2]
  dsimp only
  rw [hid2]
  dsimp only
  rw [if_neg (by simp [hfalsy2])]
  unfold findUserByChat
  dsimp only
  rw [hsame, List.find?_append]
  unfold findUserByChat at hchat
  rw [hchat]
  dsimp only [Option.none_or]
  rw [List.find?_cons_of_pos _ (by simp)]
  exact ⟨rfl, rfl⟩

/-- C5 witness: a signed login for the unseen id 7 creates the user tg_7 and
returns its token; a second signed login for id 7 returns a token for tg_7
and leaves the store unchanged. -/
theorem webapp_login_provisions_witness :
    (telegram_webapp_login
        ("user=%7B%22id%22%3A7%7D&hash=a4a39def80d431bebebe3c2a58810678269458e3c42f271068649583b081300c")
        tokGold "rnd" 0 emptyDb).1 = .ok (create_access_token "tg_7" 0)
    ∧ (telegram_webapp_login
        ("user=%7B%22id%22%3A7%7D&hash=a4a39def80d431bebebe3c2a58810678269458e3c42f271068649583b081300c")
        tokGold "rnd2" 5
        (telegram_webapp_login
          ("user=%7B%22id%22%3A7%7D&hash=a4a39def80d431bebebe3c2a58810678269458e3c42f271068649583b081300c")
          tokGold "rnd" 0 emptyDb).2).1 = .ok (create_access_token "tg_7" 5)
    ∧ (telegram_webapp_login
        ("user=%7B%22id%22%3A7%7D&hash=a4a39def80d431bebebe3c2a58810678269458e3c42f271068649583b081300c")
        tokGold "rnd2" 5
        (telegram_webapp_login
          ("user=%7B%22id%22%3A7%7D&hash=a4a39def80d431bebebe3c2a58810678269458e3c42f271068649583b081300c")
          tokGold "rnd" 0 emptyDb).2).2 =
      (telegram_webapp_login
        ("user=%7B%22id%22%3A7%7D&hash=a4a39def80d431bebebe3c2a58810678269458e3c42f271068649583b081300c")
        tokGold "rnd" 0 emptyDb).2 := by
  have h := webapp_login_provisions
    ("user=%7B%22id%22%3A7%7D&hash=a4a39def80d431bebebe3c2a58810678269458e3c42f271068649583b081300c")
    tokGold "rnd" 0 emptyDb [("id", .num 7)] (.num 7) rfl rfl rfl rfl rfl
  have h2 := h.2.2
    ("user=%7B%22id%22%3A7%7D&hash=a4a39def80d431bebebe3c2a58810678269458e3c42f271068649583b081300c")
    tokGold "rnd2" 5 [("id", .num 7)] (.num 7) rfl rfl rfl rfl
  exact ⟨h.1, h2.1, h2.2⟩

/-- C5 counterexample: the claim quantifies over every never-seen Telegram
id, but a validly signed payload for id 0 is rejected with 401 (Python
truthiness: `if not telegram_user_id`), and no `tg_0` user is provisioned. -/
theorem webapp_login_zero_id_cex :
    verify_telegram_webapp_data
      ("user=%7B%22id%22%3A0%7D&hash=bfb4792048735a0db4ac774ba28de04790f084b36b5f65e333711d47cf545098")
      tokGold = .ok (.obj [("id", .num 0)])
    ∧ (telegram_webapp_login
        ("user=%7B%22id%22%3A0%7D&hash=bfb4792048735a0db4ac774ba28de04790f084b36b5f65e333711d47cf545098")
        tokGold "rnd" 0 emptyDb).1 = .error ⟨401, "Missing user ID in Telegram data"⟩
    ∧ (telegram_webapp_login
        ("user=%7B%22id%22%3A0%7D&hash=bfb4792048735a0db4ac774ba28de04790f084b36b5f65e333711d47cf545098")
        tokGold "rnd" 0 emptyDb).2.users = [] :=
  ⟨rfl, rfl, rfl⟩

end Calendar
